import Mathlib

/-!
Verification of the storage adapter of career-compass-bot.

The definitions below are a shallow embedding of
`src/storage/google_sheets_client.py` (class `GoogleSheetsClient`) and of the
milestone rollup in `src/bot/commands.py` (`_load_milestone_rollups`).
Python dictionaries of string fields are modelled as association lists,
remote calls as an explicit trace of gateway operations, and raised
exceptions as `Except String` results.  Theorems about the claims of the
specification follow the definitions.
-/

namespace CareerCompass

/-! ## Python string primitives -/

/-- Whitespace characters recognised by Python `str.strip()` (ASCII part). -/
def isPyWS (c : Char) : Bool :=
  c = ' ' || c = '\t' || c = '\n' || c = '\r' || c.toNat = 11 || c.toNat = 12

/-- Strip leading and trailing whitespace from a character list. -/
def stripWSList (cs : List Char) : List Char :=
  ((cs.dropWhile isPyWS).reverse.dropWhile isPyWS).reverse

/-- Model of Python `str.strip()` (`str(value).strip()` on string values). -/
def pyStrip (s : String) : String := ⟨stripWSList s.data⟩

/-- Lexicographic order on code-point lists, the order Python uses to
compare strings. -/
def lexLe : List Nat → List Nat → Bool
  | [], _ => true
  | _ :: _, [] => false
  | a :: as, b :: bs =>
    if a < b then true else if b < a then false else lexLe as bs

/-- Python string comparison `a <= b` (by Unicode code points). -/
def strLe (a b : String) : Bool :=
  lexLe (a.data.map Char.toNat) (b.data.map Char.toNat)

/-- Insert into a sorted list, keeping earlier elements of equal keys first
(stability of Python `sorted`). -/
def pyInsert (x : String) : List String → List String
  | [] => [x]
  | y :: ys => if strLe x y then x :: y :: ys else y :: pyInsert x ys

/-- Model of Python `sorted` on lists of strings (stable ascending sort). -/
def pySorted : List String → List String
  | [] => []
  | x :: xs => pyInsert x (pySorted xs)

/-- One element of a Python list repr: the string in single quotes
(written via their code point). -/
def pyQuoted (s : String) : String := "\x27" ++ s ++ "\x27"

/-- `", ".join` of quoted elements. -/
def joinQuoted : List String → String
  | [] => ""
  | [x] => pyQuoted x
  | x :: y :: xs => pyQuoted x ++ ", " ++ joinQuoted (y :: xs)

/-- Python `repr` of a list of strings, as interpolated by an f-string. -/
def pyListRepr (l : List String) : String := "[" ++ joinQuoted l ++ "]"

/-! ## Date parsing: model of `datetime.strptime(value, "%Y-%m-%d")` -/

def splitOnChar (c : Char) : List Char → List (List Char)
  | [] => [[]]
  | a :: rest =>
    let r := splitOnChar c rest
    if a = c then [] :: r
    else
      match r with
      | [] => [[a]]
      | g :: gs => (a :: g) :: gs

def isDigitCh (c : Char) : Bool := 48 ≤ c.toNat && c.toNat ≤ 57

def digitsVal (cs : List Char) : Nat :=
  cs.foldl (fun acc c => acc * 10 + (c.toNat - 48)) 0

def isLeapYear (y : Nat) : Bool := (y % 4 = 0 && ¬ y % 100 = 0) || y % 400 = 0

def daysInMonth (y m : Nat) : Nat :=
  if m = 2 then (if isLeapYear y then 29 else 28)
  else if m = 4 || m = 6 || m = 9 || m = 11 then 30
  else 31

/-- `DATE_FORMAT = "%Y-%m-%d"` in the source. -/
def DATE_FORMAT : String := "%Y-%m-%d"

/-- Model of `datetime.strptime(value, "%Y-%m-%d")` succeeding: three dash
separated digit groups (up to 4-2-2 digits, as `strptime` accepts unpadded
fields), a calendar-valid year/month/day, and no surrounding characters. -/
def isValidDate (s : String) : Bool :=
  match splitOnChar '-' s.data with
  | [ys, ms, ds] =>
    ¬ ys = [] && ys.all isDigitCh && ys.length ≤ 4 &&
    ¬ ms = [] && ms.all isDigitCh && ms.length ≤ 2 &&
    ¬ ds = [] && ds.all isDigitCh && ds.length ≤ 2 &&
    (let y := digitsVal ys
     let m := digitsVal ms
     let d := digitsVal ds
     1 ≤ y && 1 ≤ m && m ≤ 12 && 1 ≤ d && d ≤ daysInMonth y m)
  | _ => false

/-! ## Float parsing: model of Python `float(value)` on the common forms
(optional whitespace, optional sign, decimal digits with optional fraction
and exponent, `inf`/`infinity`/`nan` in any case; digit-group underscores
are not modelled). -/

inductive PyFloat where
  | fin (n : Int) (e : Int)
  | inf
  | ninf
  | nan
deriving DecidableEq

def lowerAsciiCh (c : Char) : Char :=
  if 65 ≤ c.toNat && c.toNat ≤ 90 then Char.ofNat (c.toNat + 32) else c

/-- Parse an unsigned decimal with optional fraction and exponent; returns
the mantissa digits as a natural number together with the power of ten. -/
def parseUnsignedFloat (cs : List Char) : Option (Nat × Int) :=
  let intPart := cs.takeWhile isDigitCh
  let rest1 := cs.dropWhile isDigitCh
  let hasDot := match rest1 with
    | '.' :: _ => true
    | _ => false
  let afterDot := match rest1 with
    | '.' :: more => more
    | _ => rest1
  let fracPart := if hasDot then afterDot.takeWhile isDigitCh else []
  let rest2 := if hasDot then afterDot.dropWhile isDigitCh else rest1
  if intPart = [] && fracPart = [] then none
  else
    let mant := digitsVal (intPart ++ fracPart)
    let fracExp : Int := -(fracPart.length : Int)
    match rest2 with
    | [] => some (mant, fracExp)
    | e :: more =>
      if lowerAsciiCh e = 'e' then
        let signedTail : Int × List Char :=
          match more with
          | '+' :: t => (1, t)
          | '-' :: t => (-1, t)
          | t => (1, t)
        let expDigits := signedTail.2.takeWhile isDigitCh
        if expDigits = [] then none
        else if ¬ signedTail.2.dropWhile isDigitCh = [] then none
        else some (mant, signedTail.1 * (digitsVal expDigits : Int) + fracExp)
      else none

def pyFloatCore (neg : Bool) (cs : List Char) : Option PyFloat :=
  let low := cs.map lowerAsciiCh
  if low = "inf".data || low = "infinity".data then
    some (if neg then .ninf else .inf)
  else if low = "nan".data then some .nan
  else
    match parseUnsignedFloat cs with
    | some (n, e) => some (.fin (if neg then -(n : Int) else (n : Int)) e)
    | none => none

/-- Model of Python `float(value)`; `none` models a raised `ValueError`. -/
def pyFloat? (s : String) : Option PyFloat :=
  match stripWSList s.data with
  | '+' :: rest => pyFloatCore false rest
  | '-' :: rest => pyFloatCore true rest
  | cs => pyFloatCore false cs

/-- `numeric_value < 0` (false for `nan`, as in IEEE comparison). -/
def pfLtZero : PyFloat → Bool
  | .fin n _ => n < 0
  | .ninf => true
  | _ => false

/-- `numeric_value > 100` (false for `nan`). -/
def pfGtHundred : PyFloat → Bool
  | .fin n e => if 0 ≤ e then 100 < n * (10 : Int) ^ e.toNat
                else 100 * (10 : Int) ^ (-e).toNat < n
  | .inf => true
  | _ => false

/-! ## Schema registry (module-level constants of the source) -/

def HEADERS : List String := ["Timestamp", "Date", "Type", "Text", "Tags", "Source"]

def ACCOMPLISHMENTS_HEADERS : List String := HEADERS

def GOAL_HEADERS : List String :=
  ["GoalID", "Title", "Description", "WeightPercentage", "Status",
   "CompletionPercentage", "StartDate", "EndDate", "TargetDate", "Owner",
   "Notes", "LifecycleStatus", "SupersededBy", "LastModified", "Archived",
   "History"]

def GOAL_STATUSES : List String :=
  ["Not Started", "In Progress", "Blocked", "Completed", "Deferred"]

def GOAL_LIFECYCLE_STATUSES : List String :=
  ["Active", "Archived", "Superseded", "Updated"]

def COMPETENCY_HEADERS : List String :=
  ["CompetencyID", "Name", "Category", "Status", "Description"]

def COMPETENCY_STATUSES : List String := ["Active", "Inactive"]

def GOAL_MAPPING_HEADERS : List String :=
  ["EntryTimestamp", "EntryDate", "GoalID", "CompetencyID", "Notes"]

def GOAL_MILESTONE_HEADERS : List String :=
  ["GoalID", "Title", "TargetDate", "CompletionDate", "Status", "Notes"]

def GOAL_MILESTONE_STATUSES : List String :=
  ["Not Started", "In Progress", "Blocked", "Completed", "Deferred"]

def GOAL_REVIEW_HEADERS : List String :=
  ["GoalID", "ReviewType", "Notes", "Rating", "ReviewedOn"]

def GOAL_EVALUATION_HEADERS : List String :=
  ["GoalID", "EvaluationType", "Notes", "Rating", "EvaluatedOn"]

def COMPETENCY_EVALUATION_HEADERS : List String :=
  ["CompetencyID", "Notes", "Rating", "EvaluatedOn"]

def REMINDER_SETTINGS_HEADERS : List String :=
  ["Category", "TargetID", "Frequency", "Enabled", "Channel", "Notes"]

/-! ## Records: Python dicts of string fields, and alias resolution -/

/-- A Python record: an association list from field names to string values
(`Dict[str, str]` in the adapter's interface). -/
abbrev Record := List (String × String)

/-- `record.get(key)`: `none` models Python `None`. -/
def rget? (r : Record) (k : String) : Option String :=
  match r with
  | [] => none
  | (k0, v0) :: rest => if k0 = k then some v0 else rget? rest k

/-- `record.get(key, default)`. -/
def rgetD (r : Record) (k : String) (d : String) : String :=
  (rget? r k).getD d

/-- Python `x or y` where `x` is a `record.get(key)` result: `None` and the
empty string are falsy. -/
def orElseStr (v : Option String) (w : String) : String :=
  match v with
  | some s => if s = "" then w else s
  | none => w

/-! ## Raised exceptions: sequencing of validation checks -/

/-- Sequencing of a validation check before a continuation: a raised
`ValueError` propagates. -/
def chk {α : Type} (a : Except String Unit) (k : Except String α) :
    Except String α :=
  match a with
  | .error e => .error e
  | .ok _ => k

theorem chk_ok_iff {α : Type} (a : Except String Unit) (k : Except String α)
    (x : α) : chk a k = .ok x ↔ a = .ok () ∧ k = .ok x := by
  cases a with
  | error e => simp [chk]
  | ok u => cases u; simp [chk]

theorem chk_error_iff {α : Type} (a : Except String Unit)
    (k : Except String α) (e : String) :
    chk a k = .error e ↔ a = .error e ∨ (a = .ok () ∧ k = .error e) := by
  cases a with
  | error e0 => simp [chk]
  | ok u => cases u; simp [chk]

/-! ## Field validators (`_validate_*` static helpers of the source) -/

/-- `GoogleSheetsClient._validate_status`. -/
def validate_status (value : String) (allowed : List String)
    (sheet_name : String) (row_number : Nat) : Except String Unit :=
  if allowed.contains value then .ok ()
  else
    .error ("Invalid status \x27" ++ value ++ "\x27 in sheet \x27" ++
      sheet_name ++ "\x27 at row " ++ toString row_number ++ ". Allowed: " ++
      pyListRepr (pySorted allowed))

/-- `GoogleSheetsClient._validate_non_empty`. -/
def validate_non_empty (value : String) (field_name : String)
    (sheet_name : String) (row_number : Nat) : Except String Unit :=
  if value = "" then
    .error ("Field \x27" ++ field_name ++ "\x27 is required in sheet \x27" ++
      sheet_name ++ "\x27 at row " ++ toString row_number)
  else .ok ()

/-- `GoogleSheetsClient._validate_percentage_field`. -/
def validate_percentage_field (value : String) (field_name : String)
    (sheet_name : String) (row_number : Nat) : Except String Unit :=
  if value = "" then .ok ()
  else
    match pyFloat? value with
    | none =>
      .error ("Field \x27" ++ field_name ++
        "\x27 must be a number between 0 and 100 in sheet \x27" ++
        sheet_name ++ "\x27 at row " ++ toString row_number)
    | some v =>
      if pfLtZero v || pfGtHundred v then
        .error ("Field \x27" ++ field_name ++
          "\x27 must be between 0 and 100 in sheet \x27" ++ sheet_name ++
          "\x27 at row " ++ toString row_number)
      else .ok ()

/-- `GoogleSheetsClient._validate_date_field`. -/
def validate_date_field (value : String) (field_name : String)
    (sheet_name : String) (row_number : Nat) (allow_empty : Bool) :
    Except String Unit :=
  if value = "" && allow_empty then .ok ()
  else if isValidDate value then .ok ()
  else
    .error ("Field \x27" ++ field_name ++ "\x27 must match " ++ DATE_FORMAT ++
      " in sheet \x27" ++ sheet_name ++ "\x27 at row " ++ toString row_number)

/-- `GoogleSheetsClient._normalize_row_length` (pads a short row with empty
strings, truncates a long one; total, never raises). -/
def normalize_row_length (row : List String) (headers : List String)
    (_sheet_name : String) (_row_number : Nat) : List String :=
  let row2 :=
    if row.length < headers.length then
      row ++ List.replicate (headers.length - row.length) ""
    else row
  row2.take headers.length

/-! ## Decoded records (the dicts built by `dict(zip(lowercase headers, row))`)

Each decoder receives a row already normalized to the header length, so the
`getD` defaults below are never exercised. -/

structure GoalRecord where
  goalid : String
  title : String
  description : String
  weightpercentage : String
  status : String
  completionpercentage : String
  startdate : String
  enddate : String
  targetdate : String
  owner : String
  notes : String
  lifecyclestatus : String
  supersededby : String
  lastmodified : String
  archived : String
  history : String
deriving DecidableEq

def goalRecordOfRow (n : List String) : GoalRecord :=
  { goalid := n.getD 0 "", title := n.getD 1 "", description := n.getD 2 "",
    weightpercentage := n.getD 3 "", status := n.getD 4 "",
    completionpercentage := n.getD 5 "", startdate := n.getD 6 "",
    enddate := n.getD 7 "", targetdate := n.getD 8 "", owner := n.getD 9 "",
    notes := n.getD 10 "", lifecyclestatus := n.getD 11 "",
    supersededby := n.getD 12 "", lastmodified := n.getD 13 "",
    archived := n.getD 14 "", history := n.getD 15 "" }

structure GoalMilestoneRecord where
  goalid : String
  title : String
  targetdate : String
  completiondate : String
  status : String
  notes : String
deriving DecidableEq

def milestoneRecordOfRow (n : List String) : GoalMilestoneRecord :=
  { goalid := n.getD 0 "", title := n.getD 1 "", targetdate := n.getD 2 "",
    completiondate := n.getD 3 "", status := n.getD 4 "", notes := n.getD 5 "" }

structure GoalMappingRecord where
  entrytimestamp : String
  entrydate : String
  goalid : String
  competencyid : String
  notes : String
deriving DecidableEq

def mappingRecordOfRow (n : List String) : GoalMappingRecord :=
  { entrytimestamp := n.getD 0 "", entrydate := n.getD 1 "",
    goalid := n.getD 2 "", competencyid := n.getD 3 "", notes := n.getD 4 "" }

structure ReminderSettingRecord where
  category : String
  targetid : String
  frequency : String
  enabled : String
  channel : String
  notes : String
deriving DecidableEq

def reminderRecordOfRow (n : List String) : ReminderSettingRecord :=
  { category := n.getD 0 "", targetid := n.getD 1 "", frequency := n.getD 2 "",
    enabled := n.getD 3 "", channel := n.getD 4 "", notes := n.getD 5 "" }

/-- `value.split("T")[0]`, used on `LastModified` before date validation. -/
def splitT0 (s : String) : String := ⟨s.data.takeWhile (fun c => ¬ c = 'T')⟩

/-! ## Row decoders (`_normalize_*_row` methods: decode then validate) -/

/-- `GoogleSheetsClient._normalize_goal_row`. -/
def normalize_goal_row (row : List String) (row_number : Nat) :
    Except String GoalRecord :=
  let normalized := normalize_row_length row GOAL_HEADERS "Goals" row_number
  let record := goalRecordOfRow normalized
  chk (validate_status record.status GOAL_STATUSES "Goals" row_number) <|
  let lifecycle_value :=
    if record.lifecyclestatus = "" then "Active" else record.lifecyclestatus
  chk (validate_status lifecycle_value GOAL_LIFECYCLE_STATUSES "Goals"
        row_number) <|
  let record := { record with lifecyclestatus := lifecycle_value }
  chk (validate_percentage_field record.weightpercentage "WeightPercentage"
        "Goals" row_number) <|
  chk (validate_percentage_field record.completionpercentage
        "CompletionPercentage" "Goals" row_number) <|
  chk (validate_date_field record.startdate "StartDate" "Goals" row_number
        true) <|
  chk (validate_date_field record.enddate "EndDate" "Goals" row_number
        true) <|
  chk (validate_date_field record.targetdate "TargetDate" "Goals" row_number
        true) <|
  chk (if ¬ record.lastmodified = "" then
        validate_date_field (splitT0 record.lastmodified) "LastModified"
          "Goals" row_number true
      else .ok ()) <|
  chk (validate_non_empty record.goalid "GoalID" "Goals" row_number) <|
  chk (validate_non_empty record.title "Title" "Goals" row_number) <|
  .ok record

/-- `GoogleSheetsClient._normalize_goal_milestone_row`. -/
def normalize_goal_milestone_row (row : List String) (row_number : Nat) :
    Except String GoalMilestoneRecord :=
  let normalized :=
    normalize_row_length row GOAL_MILESTONE_HEADERS "GoalMilestones" row_number
  let record := milestoneRecordOfRow normalized
  chk (validate_non_empty record.goalid "GoalID" "GoalMilestones"
        row_number) <|
  chk (validate_non_empty record.title "Title" "GoalMilestones" row_number) <|
  let status_value := if record.status = "" then "Not Started" else record.status
  chk (validate_status status_value GOAL_MILESTONE_STATUSES "GoalMilestones"
        row_number) <|
  let record := { record with status := status_value }
  chk (validate_date_field record.targetdate "TargetDate" "GoalMilestones"
        row_number true) <|
  chk (validate_date_field record.completiondate "CompletionDate"
        "GoalMilestones" row_number true) <|
  .ok record

/-- `GoogleSheetsClient._normalize_goal_mapping_row`; the boolean in the
result records whether the legacy dual-link warning was logged. -/
def normalize_goal_mapping_row (row : List String) (row_number : Nat) :
    Except String (GoalMappingRecord × Bool) :=
  let normalized :=
    normalize_row_length row GOAL_MAPPING_HEADERS "GoalMappings" row_number
  let record := mappingRecordOfRow normalized
  chk (validate_non_empty record.entrytimestamp "EntryTimestamp"
        "GoalMappings" row_number) <|
  chk (validate_date_field record.entrydate "EntryDate" "GoalMappings"
        row_number false) <|
  let warned := ¬ record.goalid = "" && ¬ record.competencyid = ""
  if record.goalid = "" && record.competencyid = "" then
    .error ("GoalMappings row requires exactly one of GoalID or CompetencyID" ++
      " (sheet \x27GoalMappings\x27, row " ++ toString row_number ++ ")")
  else .ok (record, warned)

/-- `GoogleSheetsClient._normalize_reminder_setting_row`. -/
def normalize_reminder_setting_row (row : List String) (row_number : Nat) :
    Except String ReminderSettingRecord :=
  let normalized :=
    normalize_row_length row REMINDER_SETTINGS_HEADERS "ReminderSettings"
      row_number
  let record := reminderRecordOfRow normalized
  chk (validate_non_empty record.category "Category" "ReminderSettings"
        row_number) <|
  .ok record

/-! ## Alias resolution used by `append_goal` (source lines 117-134)

`goal.get(a) or goal.get(b, d)` chains are modelled with `orElseStr`;
`goal.get(a, goal.get(b, d))` chains (default-argument nesting) with
`rget?`/`rgetD`. -/

def goal_res_goalid (g : Record) : String :=
  orElseStr (rget? g "goalid") (orElseStr (rget? g "goal_id") (rgetD g "id" ""))

def goal_res_weight (g : Record) : String :=
  pyStrip (rgetD g "weightpercentage" (rgetD g "weight_percentage" ""))

def goal_res_completion (g : Record) : String :=
  pyStrip (rgetD g "completionpercentage" (rgetD g "completion_percentage" ""))

def goal_res_startdate (g : Record) : String :=
  orElseStr (rget? g "startdate") (rgetD g "start_date" "")

def goal_res_enddate (g : Record) : String :=
  orElseStr (rget? g "enddate") (rgetD g "end_date" "")

def goal_res_targetdate (g : Record) : String :=
  orElseStr (rget? g "targetdate") (rgetD g "target_date" "")

def goal_res_lifecycle (g : Record) : String :=
  orElseStr (rget? g "lifecyclestatus") (rgetD g "lifecycle_status" "Active")

def goal_res_supersededby (g : Record) : String :=
  orElseStr (rget? g "supersededby") (rgetD g "superseded_by" "")

/-- `goal.get("lastmodified") or goal.get("last_modified", utcnow)`; the
current-time string is passed in as `now`. -/
def goal_res_lastmodified (g : Record) (now : String) : String :=
  orElseStr (rget? g "lastmodified") (rgetD g "last_modified" now)

def goal_res_archived (g : Record) : String := pyStrip (rgetD g "archived" "")

/-- The ordered row of values built by `append_goal`. -/
def encode_goal (g : Record) (now : String) : List String :=
  [goal_res_goalid g, rgetD g "title" "", rgetD g "description" "",
   goal_res_weight g, rgetD g "status" "", goal_res_completion g,
   goal_res_startdate g, goal_res_enddate g, goal_res_targetdate g,
   rgetD g "owner" "", rgetD g "notes" "", goal_res_lifecycle g,
   goal_res_supersededby g, goal_res_lastmodified g now,
   goal_res_archived g, rgetD g "history" ""]

/-! ## Write-side validators (`_validate_<entity>` methods) -/

/-- Alias chain validated for `WeightPercentage` on write (note: it also
consults the `weight` alias, which `encode_goal` does not emit). -/
def goal_val_weight (g : Record) : String :=
  orElseStr (rget? g "weightpercentage")
    (orElseStr (rget? g "weight_percentage") (rgetD g "weight" ""))

def goal_val_completion (g : Record) : String :=
  orElseStr (rget? g "completionpercentage")
    (orElseStr (rget? g "completion_percentage")
      (orElseStr (rget? g "complete_percentage") (rgetD g "completepercent" "")))

/-- `GoogleSheetsClient._validate_goal` (pre-write check, row number 0). -/
def validate_goal (g : Record) : Except String Unit :=
  chk (validate_status (rgetD g "status" "") GOAL_STATUSES "Goals" 0) <|
  chk (validate_status (goal_res_lifecycle g) GOAL_LIFECYCLE_STATUSES
        "Goals" 0) <|
  chk (validate_percentage_field (goal_val_weight g) "WeightPercentage"
        "Goals" 0) <|
  chk (validate_percentage_field (goal_val_completion g)
        "CompletionPercentage" "Goals" 0) <|
  chk (validate_date_field (goal_res_startdate g) "StartDate" "Goals" 0
        true) <|
  chk (validate_date_field (goal_res_enddate g) "EndDate" "Goals" 0 true) <|
  chk (validate_date_field (goal_res_targetdate g) "TargetDate" "Goals" 0
        true) <|
  chk (validate_non_empty (goal_res_goalid g) "GoalID" "Goals" 0) <|
  chk (validate_non_empty (rgetD g "title" "") "Title" "Goals" 0) <|
  .ok ()

def milestone_res_goalid (m : Record) : String :=
  orElseStr (rget? m "goalid") (orElseStr (rget? m "goal_id") (rgetD m "goal" ""))

def milestone_res_title (m : Record) : String :=
  orElseStr (rget? m "title") (orElseStr (rget? m "milestone") (rgetD m "name" ""))

def milestone_res_targetdate (m : Record) : String :=
  orElseStr (rget? m "targetdate") (rgetD m "target_date" "")

def milestone_res_completiondate (m : Record) : String :=
  orElseStr (rget? m "completiondate")
    (orElseStr (rget? m "completion_date") (rgetD m "completedon" ""))

/-- `GoogleSheetsClient._validate_goal_milestone`. -/
def validate_goal_milestone (m : Record) : Except String Unit :=
  chk (validate_non_empty (milestone_res_goalid m) "GoalID" "GoalMilestones"
        0) <|
  chk (validate_non_empty (milestone_res_title m) "Title" "GoalMilestones"
        0) <|
  chk (validate_status (rgetD m "status" "Not Started")
        GOAL_MILESTONE_STATUSES "GoalMilestones" 0) <|
  chk (validate_date_field (milestone_res_targetdate m) "TargetDate"
        "GoalMilestones" 0 true) <|
  chk (validate_date_field (milestone_res_completiondate m) "CompletionDate"
        "GoalMilestones" 0 true) <|
  .ok ()

/-- The ordered row of values built by `append_goal_milestone`. -/
def encode_goal_milestone (m : Record) : List String :=
  [milestone_res_goalid m, milestone_res_title m, milestone_res_targetdate m,
   milestone_res_completiondate m, rgetD m "status" "", rgetD m "notes" ""]

def mapping_res_timestamp (m : Record) : String :=
  orElseStr (rget? m "entrytimestamp")
    (orElseStr (rget? m "entry_timestamp") (rgetD m "timestamp" ""))

def mapping_res_date (m : Record) : String :=
  orElseStr (rget? m "entrydate")
    (orElseStr (rget? m "entry_date") (rgetD m "date" ""))

def mapping_res_goalid (m : Record) : String :=
  orElseStr (rget? m "goalid") (orElseStr (rget? m "goal_id") (rgetD m "goal" ""))

def mapping_res_competencyid (m : Record) : String :=
  orElseStr (rget? m "competencyid")
    (orElseStr (rget? m "competency_id") (rgetD m "competency" ""))

/-- `GoogleSheetsClient._validate_goal_mapping`. -/
def validate_goal_mapping (m : Record) : Except String Unit :=
  chk (validate_non_empty (mapping_res_timestamp m) "EntryTimestamp"
        "GoalMappings" 0) <|
  chk (validate_date_field (mapping_res_date m) "EntryDate" "GoalMappings" 0
        false) <|
  if ¬ mapping_res_goalid m = "" && ¬ mapping_res_competencyid m = "" then
    .error
      "GoalMappings append accepts either a GoalID or CompetencyID, not both"
  else if mapping_res_goalid m = "" && mapping_res_competencyid m = "" then
    .error "GoalMappings append requires exactly one of GoalID or CompetencyID"
  else .ok ()

/-- The ordered row of values built by `append_goal_mapping`. -/
def encode_goal_mapping (m : Record) : List String :=
  [mapping_res_timestamp m, mapping_res_date m, mapping_res_goalid m,
   mapping_res_competencyid m, rgetD m "notes" ""]

def competency_res_id (c : Record) : String :=
  orElseStr (rget? c "competencyid")
    (orElseStr (rget? c "competency_id") (rgetD c "id" ""))

/-- `GoogleSheetsClient._validate_competency`. -/
def validate_competency (c : Record) : Except String Unit :=
  chk (validate_status (rgetD c "status" "") COMPETENCY_STATUSES
        "Competencies" 0) <|
  chk (validate_non_empty (competency_res_id c) "CompetencyID"
        "Competencies" 0) <|
  chk (validate_non_empty (rgetD c "name" "") "Name" "Competencies" 0) <|
  .ok ()

/-- The ordered row of values built by `append_competency`. -/
def encode_competency (c : Record) : List String :=
  [competency_res_id c, rgetD c "name" "", rgetD c "category" "",
   rgetD c "status" "", rgetD c "description" ""]

def review_res_goalid (r : Record) : String :=
  orElseStr (rget? r "goalid") (orElseStr (rget? r "goal_id") (rgetD r "goal" ""))

def review_res_type (r : Record) : String :=
  orElseStr (rget? r "reviewtype") (rgetD r "review_type" "")

/-- `review.get("reviewedon") or review.get("reviewed_on") or
review.get("date") or utcnow().date()`; `today` is the current date string. -/
def review_res_date (r : Record) (today : String) : String :=
  orElseStr (rget? r "reviewedon")
    (orElseStr (rget? r "reviewed_on") (orElseStr (rget? r "date") today))

/-- `GoogleSheetsClient._validate_goal_review`. -/
def validate_goal_review (r : Record) (today : String) : Except String Unit :=
  chk (validate_non_empty (review_res_goalid r) "GoalID" "GoalReviews" 0) <|
  chk (validate_non_empty (review_res_type r) "ReviewType" "GoalReviews" 0) <|
  chk (validate_date_field (review_res_date r today) "ReviewedOn"
        "GoalReviews" 0 false) <|
  .ok ()

/-- The ordered row of values built by `append_goal_review`. -/
def encode_goal_review (r : Record) (today : String) : List String :=
  [review_res_goalid r, review_res_type r, rgetD r "notes" "",
   rgetD r "rating" "", review_res_date r today]

def evaluation_res_goalid (r : Record) : String :=
  orElseStr (rget? r "goalid") (orElseStr (rget? r "goal_id") (rgetD r "goal" ""))

def evaluation_res_type (r : Record) : String :=
  orElseStr (rget? r "evaluationtype")
    (orElseStr (rget? r "evaluation_type") (rgetD r "type" ""))

def evaluation_res_date (r : Record) (today : String) : String :=
  orElseStr (rget? r "evaluatedon")
    (orElseStr (rget? r "evaluated_on") (orElseStr (rget? r "date") today))

/-- `GoogleSheetsClient._validate_goal_evaluation`. -/
def validate_goal_evaluation (r : Record) (today : String) :
    Except String Unit :=
  chk (validate_non_empty (evaluation_res_goalid r) "GoalID"
        "GoalEvaluations" 0) <|
  chk (validate_non_empty (evaluation_res_type r) "EvaluationType"
        "GoalEvaluations" 0) <|
  chk (validate_date_field (evaluation_res_date r today) "EvaluatedOn"
        "GoalEvaluations" 0 false) <|
  .ok ()

/-- The ordered row of values built by `append_goal_evaluation`. -/
def encode_goal_evaluation (r : Record) (today : String) : List String :=
  [evaluation_res_goalid r, evaluation_res_type r, rgetD r "notes" "",
   rgetD r "rating" "", evaluation_res_date r today]

def cevaluation_res_id (r : Record) : String :=
  orElseStr (rget? r "competencyid")
    (orElseStr (rget? r "competency_id") (rgetD r "competency" ""))

/-- `GoogleSheetsClient._validate_competency_evaluation`. -/
def validate_competency_evaluation (r : Record) (today : String) :
    Except String Unit :=
  chk (validate_non_empty (cevaluation_res_id r) "CompetencyID"
        "CompetencyEvaluations" 0) <|
  chk (validate_date_field (evaluation_res_date r today) "EvaluatedOn"
        "CompetencyEvaluations" 0 false) <|
  .ok ()

/-- The ordered row of values built by `append_competency_evaluation`. -/
def encode_competency_evaluation (r : Record) (today : String) : List String :=
  [cevaluation_res_id r, rgetD r "notes" "", rgetD r "rating" "",
   evaluation_res_date r today]

/-- The ordered row of values built by `append_entry` (no validation). -/
def encode_entry (e : Record) : List String :=
  [rgetD e "timestamp" "", rgetD e "date" "", rgetD e "type" "",
   rgetD e "text" "", rgetD e "tags" "", rgetD e "source" ""]

/-- The ordered row of values built by `append_reminder_setting`
(no validation; `str(setting.get("enabled", True))` defaults to "True"). -/
def encode_reminder_setting (s : Record) : List String :=
  [rgetD s "category" "",
   orElseStr (rget? s "targetid") (orElseStr (rget? s "target_id")
     (rgetD s "target" "")),
   rgetD s "frequency" "", rgetD s "enabled" "True", rgetD s "channel" "",
   rgetD s "notes" ""]

/-! ## Remote gateway: operations traced against an abstract remote store -/

inductive GatewayOp where
  | getMetadata
  | createSheet (sheet : String)
  | getHeaders (sheet : String)
  | updateHeaders (sheet : String) (headers : List String)
  | appendRow (sheet : String) (values : List String)
deriving DecidableEq

/-- Responses of the remote store during one adapter call: the sheet titles
returned by the metadata fetch, the rows returned by the header-range read,
and the `updatedRows` count of the append response (0 models a missing or
empty `updates` body). -/
structure RemoteEnv where
  sheetTitles : List String
  headerRows : String → List (List String)
  appendUpdatedRows : Nat

/-- `GoogleSheetsClient._ensure_sheet_exists`; returns the gateway calls
made and the outcome. -/
def ensure_sheet_exists (env : RemoteEnv) (sheet_name : String)
    (create_if_missing : Bool) : List GatewayOp × Except String Unit :=
  if env.sheetTitles.contains sheet_name then ([.getMetadata], .ok ())
  else if create_if_missing = false then
    ([.getMetadata],
     .error ("Sheet \x27" ++ sheet_name ++
       "\x27 is missing. Please create it with the expected headers."))
  else ([.getMetadata, .createSheet sheet_name], .ok ())

/-- `values[0] if values else 'empty'` as interpolated into the header
mismatch message. -/
def foundHeaderStr (values : List (List String)) : String :=
  match values with
  | [] => "empty"
  | v0 :: _ => pyListRepr v0

/-- `GoogleSheetsClient._ensure_headers`. -/
def ensure_headers (env : RemoteEnv) (sheet_name : String)
    (headers : List String) (allow_header_update : Bool) :
    List GatewayOp × Except String Unit :=
  let values := env.headerRows sheet_name
  if ¬ values = [] ∧ (values.headD []).take headers.length = headers then
    ([.getHeaders sheet_name], .ok ())
  else if allow_header_update = false then
    ([.getHeaders sheet_name],
     .error ("Sheet \x27" ++ sheet_name ++
       "\x27 header mismatch. Expected " ++ pyListRepr headers ++
       ", found " ++ foundHeaderStr values))
  else
    ([.getHeaders sheet_name, .updateHeaders sheet_name headers], .ok ())

/-- The body of `_ensure_sheet_initialized_for` past the memoization check:
ensure the sheet exists, then ensure its headers. -/
def ensure_init_body (env : RemoteEnv) (sheet_name : String)
    (headers : List String) (create_if_missing allow_header_update : Bool) :
    List GatewayOp × Except String Unit :=
  match ensure_sheet_exists env sheet_name create_if_missing with
  | (ops1, .error e) => (ops1, .error e)
  | (ops1, .ok _) =>
    match ensure_headers env sheet_name headers allow_header_update with
    | (ops2, r) => (ops1 ++ ops2, r)

/-- `GoogleSheetsClient._ensure_sheet_initialized_for`: skip when memoized,
otherwise run the body and record the sheet in `_initialized_sheets`
(returned as the updated memoization list). -/
def ensure_sheet_initialized_for (env : RemoteEnv) (inited : List String)
    (sheet_name : String) (headers : List String)
    (create_if_missing allow_header_update : Bool) :
    List GatewayOp × Except String (List String) :=
  if inited.contains sheet_name then ([], .ok inited)
  else
    match ensure_init_body env sheet_name headers create_if_missing
        allow_header_update with
    | (ops, .error e) => (ops, .error e)
    | (ops, .ok _) => (ops, .ok (inited ++ [sheet_name]))

/-- `GoogleSheetsClient._append_row`. -/
def append_row (env : RemoteEnv) (inited : List String) (sheet_name : String)
    (headers : List String) (values : List String)
    (create_if_missing allow_header_update : Bool) :
    List GatewayOp × Except String (List String) :=
  match ensure_sheet_initialized_for env inited sheet_name headers
      create_if_missing allow_header_update with
  | (ops, .error e) => (ops, .error e)
  | (ops, .ok inited2) =>
    let taken := values.take headers.length
    let normalized_values :=
      taken ++ List.replicate (headers.length - taken.length) ""
    let ops2 := ops ++ [.appendRow sheet_name normalized_values]
    if env.appendUpdatedRows = 0 then
      (ops2, .error "Google Sheets append did not write any rows")
    else (ops2, .ok inited2)

/-! ## Entity repository: one append per entity, composed exactly as in the
source (validate, then `_append_row`; `append_entry` and
`append_reminder_setting` perform no validation). -/

def append_entry (env : RemoteEnv) (inited : List String)
    (sheet_name : String) (e : Record) :
    List GatewayOp × Except String (List String) :=
  append_row env inited sheet_name ACCOMPLISHMENTS_HEADERS (encode_entry e)
    true true

def append_goal (env : RemoteEnv) (inited : List String) (g : Record)
    (now : String) : List GatewayOp × Except String (List String) :=
  match validate_goal g with
  | .error e => ([], .error e)
  | .ok _ => append_row env inited "Goals" GOAL_HEADERS (encode_goal g now)
      false false

def append_competency (env : RemoteEnv) (inited : List String) (c : Record) :
    List GatewayOp × Except String (List String) :=
  match validate_competency c with
  | .error e => ([], .error e)
  | .ok _ => append_row env inited "Competencies" COMPETENCY_HEADERS
      (encode_competency c) false false

def append_goal_mapping (env : RemoteEnv) (inited : List String)
    (m : Record) : List GatewayOp × Except String (List String) :=
  match validate_goal_mapping m with
  | .error e => ([], .error e)
  | .ok _ => append_row env inited "GoalMappings" GOAL_MAPPING_HEADERS
      (encode_goal_mapping m) false false

def append_goal_milestone (env : RemoteEnv) (inited : List String)
    (m : Record) : List GatewayOp × Except String (List String) :=
  match validate_goal_milestone m with
  | .error e => ([], .error e)
  | .ok _ => append_row env inited "GoalMilestones" GOAL_MILESTONE_HEADERS
      (encode_goal_milestone m) false false

def append_goal_review (env : RemoteEnv) (inited : List String) (r : Record)
    (today : String) : List GatewayOp × Except String (List String) :=
  match validate_goal_review r today with
  | .error e => ([], .error e)
  | .ok _ => append_row env inited "GoalReviews" GOAL_REVIEW_HEADERS
      (encode_goal_review r today) false false

def append_goal_evaluation (env : RemoteEnv) (inited : List String)
    (r : Record) (today : String) :
    List GatewayOp × Except String (List String) :=
  match validate_goal_evaluation r today with
  | .error e => ([], .error e)
  | .ok _ => append_row env inited "GoalEvaluations" GOAL_EVALUATION_HEADERS
      (encode_goal_evaluation r today) false false

def append_competency_evaluation (env : RemoteEnv) (inited : List String)
    (r : Record) (today : String) :
    List GatewayOp × Except String (List String) :=
  match validate_competency_evaluation r today with
  | .error e => ([], .error e)
  | .ok _ => append_row env inited "CompetencyEvaluations"
      COMPETENCY_EVALUATION_HEADERS (encode_competency_evaluation r today)
      false false

def append_reminder_setting (env : RemoteEnv) (inited : List String)
    (s : Record) : List GatewayOp × Except String (List String) :=
  append_row env inited "ReminderSettings" REMINDER_SETTINGS_HEADERS
    (encode_reminder_setting s) false false

/-- `ensure_sheet_setup` (entry-log sheet: create and rewrite allowed). -/
def ensure_sheet_setup (env : RemoteEnv) (inited : List String)
    (sheet_name : String) : List GatewayOp × Except String (List String) :=
  ensure_sheet_initialized_for env inited sheet_name ACCOMPLISHMENTS_HEADERS
    true true

/-- The per-sheet flags of every domain-entity call site
(`create_if_missing=False, allow_header_update=False` throughout). -/
structure SheetConfig where
  sheet : String
  headers : List String
  create_if_missing : Bool
  allow_header_update : Bool

def domain_sheet_configs : List SheetConfig :=
  [⟨"Goals", GOAL_HEADERS, false, false⟩,
   ⟨"Competencies", COMPETENCY_HEADERS, false, false⟩,
   ⟨"GoalMappings", GOAL_MAPPING_HEADERS, false, false⟩,
   ⟨"GoalMilestones", GOAL_MILESTONE_HEADERS, false, false⟩,
   ⟨"GoalReviews", GOAL_REVIEW_HEADERS, false, false⟩,
   ⟨"GoalEvaluations", GOAL_EVALUATION_HEADERS, false, false⟩,
   ⟨"CompetencyEvaluations", COMPETENCY_EVALUATION_HEADERS, false, false⟩,
   ⟨"ReminderSettings", REMINDER_SETTINGS_HEADERS, false, false⟩]

/-- The decode loop of `get_goals`:
`[self._normalize_goal_row(row, index) for index, row in enumerate(rows, start=2)]`,
raising at the first invalid row. -/
def decode_goal_rows_from (rows : List (List String)) (row_number : Nat) :
    Except String (List GoalRecord) :=
  match rows with
  | [] => .ok []
  | r :: rs =>
    match normalize_goal_row r row_number with
    | .error e => .error e
    | .ok g =>
      match decode_goal_rows_from rs (row_number + 1) with
      | .error e => .error e
      | .ok gs => .ok (g :: gs)

def decode_goal_rows (rows : List (List String)) :
    Except String (List GoalRecord) :=
  decode_goal_rows_from rows 2

/-! ## Retry loop: `GoogleSheetsClient._execute_with_retries` -/

/-- The default of the `max_retries` constructor argument. -/
def default_max_retries : Nat := 3

/-- Result of the retry loop: how many calls were made, which back-off
delays were slept, and the outcome (`none` models the `None` returned when
the loop body never runs). -/
structure RetryResult (E A : Type) where
  calls : Nat
  sleeps : List Nat
  outcome : Option (Except E A)

/-- One iteration of the retry loop. `f k` is the outcome of the k-th
underlying call; `remaining = max_retries - attempt` so `remaining = 0`
models `is_last_attempt`. -/
def retryGo {E A : Type} (f : Nat → Except E A) (attempt delay : Nat) :
    Nat → RetryResult E A
  | 0 => ⟨0, [], none⟩
  | remaining + 1 =>
    match f attempt with
    | .ok a => ⟨1, [], some (.ok a)⟩
    | .error e =>
      if remaining = 0 then ⟨1, [], some (.error e)⟩
      else
        let r := retryGo f (attempt + 1) (delay * 2) remaining
        ⟨r.calls + 1, delay :: r.sleeps, r.outcome⟩

/-- `_execute_with_retries(func, action)` with `delay = 1` and attempts
`1 .. max_retries`. -/
def execute_with_retries {E A : Type} (f : Nat → Except E A)
    (max_retries : Nat) : RetryResult E A :=
  retryGo f 1 1 max_retries

/-! ## Milestone rollup: `_load_milestone_rollups` in `src/bot/commands.py` -/

/-- The counters dict of `_load_milestone_rollups` (keys `total`, `done`,
`completed_dates`; the second is named `doneCount` here because `done` is
reserved). -/
structure Rollup where
  total : Nat
  doneCount : Nat
  completed_dates : List String
deriving DecidableEq

def zeroRollup : Rollup := ⟨0, 0, []⟩

/-- Association-list get, modelling Python dict lookup. -/
def alGet? {α : Type} : List (String × α) → String → Option α
  | [], _ => none
  | (k0, v0) :: rest, k => if k0 = k then some v0 else alGet? rest k

/-- Association-list set, modelling Python dict assignment (insertion order
preserved, new keys appended). -/
def alSet {α : Type} : List (String × α) → String → α → List (String × α)
  | [], k, v => [(k, v)]
  | (k0, v0) :: rest, k, v =>
    if k0 = k then (k, v) :: rest else (k0, v0) :: alSet rest k v

/-- The per-milestone update of the rollup counters (total incremented;
done and the date list only for status `"Completed"`). -/
def rollupBump (c : Rollup) (m : GoalMilestoneRecord) : Rollup :=
  let c := { c with total := c.total + 1 }
  if m.status = "Completed" then
    let dates :=
      if ¬ m.completiondate = "" then c.completed_dates ++ [m.completiondate]
      else c.completed_dates
    { c with doneCount := c.doneCount + 1, completed_dates := dates }
  else c

/-- One iteration of the milestone loop of `_load_milestone_rollups`. -/
def rollupStep (acc : List (String × Rollup)) (m : GoalMilestoneRecord) :
    List (String × Rollup) :=
  if m.goalid = "" then acc
  else alSet acc m.goalid (rollupBump ((alGet? acc m.goalid).getD zeroRollup) m)

/-- The formatted rollup string for one goal:
`f"{completed}/{total} done"` plus `f" (latest {sorted(dates)[-1]})"`. -/
def rollupFormat (c : Rollup) : String :=
  toString c.doneCount ++ "/" ++ toString c.total ++ " done" ++
    (if ¬ c.completed_dates = [] then
      " (latest " ++ ((pySorted c.completed_dates).getLastD "") ++ ")"
    else "")

/-- `_load_milestone_rollups` on an already-fetched milestone list. -/
def load_milestone_rollups (milestones : List GoalMilestoneRecord) :
    List (String × String) :=
  (milestones.foldl rollupStep []).map (fun p => (p.1, rollupFormat p.2))

/-! ## Concurrency model for the memoization set

`_initialized_sheets` is a plain `set` written without any lock; concurrent
callers (worker threads spawned by `asyncio.to_thread`) interleave between
the membership check and the insertion.  A thread is either before its
membership check, past a failed check (about to initialize), or finished. -/

inductive ThreadPhase where
  | start
  | initing
  | halted
deriving DecidableEq

structure RaceState where
  initialized : List String
  pc1 : ThreadPhase
  pc2 : ThreadPhase
  trace : List GatewayOp
deriving DecidableEq

def initialRaceState : RaceState := ⟨[], .start, .start, []⟩

/-- Advance one thread of two concurrent `_ensure_sheet_initialized_for`
calls on the same sheet by one atomic region: the membership check, or the
whole unguarded initialization body followed by the set insertion. -/
def raceStep (env : RemoteEnv) (cfg : SheetConfig) (s : RaceState)
    (first : Bool) : RaceState :=
  let pc := if first then s.pc1 else s.pc2
  match pc with
  | .start =>
    let pc2 := if s.initialized.contains cfg.sheet then ThreadPhase.halted
               else ThreadPhase.initing
    if first then { s with pc1 := pc2 } else { s with pc2 := pc2 }
  | .initing =>
    let body := ensure_init_body env cfg.sheet cfg.headers
      cfg.create_if_missing cfg.allow_header_update
    let inited2 := match body.2 with
      | .ok _ => s.initialized ++ [cfg.sheet]
      | .error _ => s.initialized
    let tr := s.trace ++ body.1
    if first then { s with pc1 := .halted, trace := tr, initialized := inited2 }
    else { s with pc2 := .halted, trace := tr, initialized := inited2 }
  | .halted => s

def raceRun (env : RemoteEnv) (cfg : SheetConfig) (sched : List Bool) :
    RaceState :=
  sched.foldl (raceStep env cfg) initialRaceState

def countCreates (ops : List GatewayOp) : Nat :=
  (ops.filter (fun o => match o with
    | .createSheet _ => true
    | _ => false)).length

/-! ## Supporting lemmas about the validators -/

theorem validate_status_ok_iff (value : String) (allowed : List String)
    (sn : String) (n : Nat) :
    validate_status value allowed sn n = .ok () ↔
      allowed.contains value = true := by
  unfold validate_status
  by_cases h : allowed.contains value = true <;> simp [h]

theorem validate_non_empty_ok_iff (value fn sn : String) (n : Nat) :
    validate_non_empty value fn sn n = .ok () ↔ ¬ value = "" := by
  unfold validate_non_empty
  by_cases h : value = "" <;> simp [h]

theorem validate_percentage_ok_iff (value fn sn : String) (n : Nat) :
    validate_percentage_field value fn sn n = .ok () ↔
      (value = "" ∨ ∃ x, pyFloat? value = some x ∧
        (pfLtZero x || pfGtHundred x) = false) := by
  unfold validate_percentage_field
  by_cases h : value = ""
  · simp [h]
  · simp only [h, if_false]
    cases hp : pyFloat? value with
    | none => simp [h]
    | some x =>
      dsimp only
      constructor
      · intro hok
        cases hbv : (pfLtZero x || pfGtHundred x) with
        | false => exact Or.inr ⟨x, rfl, hbv⟩
        | true =>
          rw [hbv] at hok
          simp at hok
      · rintro (hv | ⟨y, hy, hb2⟩)
        · exact hv.elim
        · cases hy
          rw [hb2]
          simp

theorem validate_date_ok_iff (value fn sn : String) (n : Nat) (ae : Bool) :
    validate_date_field value fn sn n ae = .ok () ↔
      ((value = "" && ae) = true ∨ isValidDate value = true) := by
  unfold validate_date_field
  by_cases h : (value = "" && ae) = true
  · simp [h]
  · simp only [h, if_false]
    by_cases hd : isValidDate value = true <;> simp_all

/-- Ok-ness of each field validator does not depend on the row number. -/
theorem validate_percentage_ok_row_irrel (value fn sn : String) (n m : Nat)
    (h : validate_percentage_field value fn sn n = .ok ()) :
    validate_percentage_field value fn sn m = .ok () := by
  rw [validate_percentage_ok_iff] at h ⊢; exact h

theorem validate_date_ok_row_irrel (value fn sn : String) (n m : Nat)
    (ae : Bool) (h : validate_date_field value fn sn n ae = .ok ()) :
    validate_date_field value fn sn m ae = .ok () := by
  rw [validate_date_ok_iff] at h ⊢; exact h

/-! ## Supporting lemmas about stripping and float parsing -/

theorem dropWhile_dropWhile {α : Type} (p : α → Bool) (l : List α) :
    (l.dropWhile p).dropWhile p = l.dropWhile p := by
  induction l with
  | nil => rfl
  | cons a as ih =>
    by_cases h : p a = true
    · simp [List.dropWhile, h, ih]
    · simp [List.dropWhile, h]

theorem head_dropWhile_not {α : Type} (p : α → Bool) (l : List α) (a : α)
    (h : (l.dropWhile p).head? = some a) : p a = false := by
  induction l with
  | nil => simp [List.dropWhile] at h
  | cons x xs ih =>
    by_cases hx : p x = true
    · exact ih (by simpa [List.dropWhile, hx] using h)
    · simp [List.dropWhile, hx] at h
      subst h
      simpa using hx

theorem dropWhile_of_head_not {α : Type} (p : α → Bool) (l : List α)
    (h : ∀ a, l.head? = some a → p a = false) : l.dropWhile p = l := by
  cases l with
  | nil => rfl
  | cons x xs => simp [List.dropWhile, h x rfl]

/-- Dropping a whitespace suffix commutes with prepending a non-whitespace
head. -/
theorem rstrip_cons {α : Type} (p : α → Bool) (a : α) (l : List α)
    (ha : p a = false) :
    ((a :: l).reverse.dropWhile p).reverse =
      a :: (l.reverse.dropWhile p).reverse := by
  rw [List.reverse_cons, List.dropWhile_append]
  by_cases h : (l.reverse.dropWhile p).isEmpty = true
  · simp [h, List.dropWhile, ha, List.isEmpty_iff.mp h]
  · simp [h]

theorem stripWSList_idem (cs : List Char) :
    stripWSList (stripWSList cs) = stripWSList cs := by
  unfold stripWSList
  have hfrontback :
      ∀ l : List Char,
        ((l.dropWhile isPyWS).reverse.dropWhile isPyWS).reverse.dropWhile
            isPyWS =
          ((l.dropWhile isPyWS).reverse.dropWhile isPyWS).reverse := by
    intro l
    cases hdw : l.dropWhile isPyWS with
    | nil => simp
    | cons a t =>
      have ha : isPyWS a = false :=
        head_dropWhile_not isPyWS l a (by simp [hdw])
      rw [rstrip_cons isPyWS a t ha]
      exact dropWhile_of_head_not isPyWS _ (by
        intro b hb
        simp at hb
        rw [← hb]
        exact ha)
  rw [hfrontback cs, List.reverse_reverse, dropWhile_dropWhile]

theorem pyStrip_data (s : String) : (pyStrip s).data = stripWSList s.data := rfl

theorem pyFloat_pyStrip (s : String) : pyFloat? (pyStrip s) = pyFloat? s := by
  unfold pyFloat?
  rw [pyStrip_data, stripWSList_idem]

theorem pyStrip_empty : pyStrip "" = "" := rfl

/-- If a value passes the percentage validation, so does its stripped form
(Python `float` ignores surrounding whitespace). -/
theorem validate_percentage_strip (value fn sn : String) (n m : Nat)
    (h : validate_percentage_field value fn sn n = .ok ()) :
    validate_percentage_field (pyStrip value) fn sn m = .ok () := by
  rw [validate_percentage_ok_iff] at h ⊢
  by_cases hs : pyStrip value = ""
  · exact Or.inl hs
  · rcases h with h | ⟨x, hx, hb⟩
    · subst h; simp [pyStrip_empty] at hs
    · exact Or.inr ⟨x, by rw [pyFloat_pyStrip]; exact hx, hb⟩

/-! ## Supporting lemmas about the string order and `pySorted` -/

theorem lexLe_refl (l : List Nat) : lexLe l l = true := by
  induction l with
  | nil => rfl
  | cons a as ih => simp [lexLe, ih]

theorem lexLe_total (a b : List Nat) :
    lexLe a b = true ∨ lexLe b a = true := by
  induction a generalizing b with
  | nil => exact Or.inl rfl
  | cons x xs ih =>
    cases b with
    | nil => exact Or.inr rfl
    | cons y ys =>
      rcases Nat.lt_trichotomy x y with h | h | h
      · left; simp [lexLe, h]
      · subst h
        rcases ih ys with h2 | h2
        · left; simp [lexLe, h2]
        · right; simp [lexLe, h2]
      · right; simp [lexLe, h]

theorem lexLe_trans (a b c : List Nat) (hab : lexLe a b = true)
    (hbc : lexLe b c = true) : lexLe a c = true := by
  induction a generalizing b c with
  | nil => rfl
  | cons x xs ih =>
    cases b with
    | nil => simp [lexLe] at hab
    | cons y ys =>
      cases c with
      | nil => simp [lexLe] at hbc
      | cons z zs =>
        simp only [lexLe] at hab hbc ⊢
        rcases Nat.lt_trichotomy x y with h1 | h1 | h1
        · rcases Nat.lt_trichotomy y z with h2 | h2 | h2
          · simp [Nat.lt_trans h1 h2]
          · subst h2; simp [h1]
          · simp [h2, Nat.lt_asymm h2] at hbc
        · subst h1
          rcases Nat.lt_trichotomy x z with h2 | h2 | h2
          · simp [h2]
          · subst h2
            simp only [Nat.lt_irrefl, if_false] at hab hbc ⊢
            exact ih ys zs hab hbc
          · simp [h2, Nat.lt_asymm h2] at hbc
        · simp [h1, Nat.lt_asymm h1] at hab

theorem strLe_refl (s : String) : strLe s s = true := lexLe_refl _

theorem strLe_total (a b : String) : strLe a b = true ∨ strLe b a = true :=
  lexLe_total _ _

theorem strLe_trans {a b c : String} (hab : strLe a b = true)
    (hbc : strLe b c = true) : strLe a c = true :=
  lexLe_trans _ _ _ hab hbc

theorem mem_pyInsert (x y : String) (l : List String) :
    y ∈ pyInsert x l ↔ y = x ∨ y ∈ l := by
  induction l with
  | nil => simp [pyInsert]
  | cons a as ih =>
    by_cases h : strLe x a = true
    · simp [pyInsert, h]
    · simp [pyInsert, h, ih]
      tauto

theorem mem_pySorted (y : String) (l : List String) :
    y ∈ pySorted l ↔ y ∈ l := by
  induction l with
  | nil => simp [pySorted]
  | cons a as ih => simp [pySorted, mem_pyInsert, ih]

theorem getLast?_cons_of_ne_nil {α : Type} (a : α) (l : List α)
    (h : ¬ l = []) : (a :: l).getLast? = l.getLast? := by
  cases l with
  | nil => exact absurd rfl h
  | cons b bs => exact List.getLast?_cons_cons

theorem pyInsert_ne_nil (x : String) (l : List String) :
    ¬ pyInsert x l = [] := by
  cases l with
  | nil => simp [pyInsert]
  | cons a as =>
    by_cases h : strLe x a = true <;> simp [pyInsert, h]

/-- The last element of `pyInsert x s` is the old last element (when `x`
sits no later than some element) or `x` itself (when `x` is appended). -/
theorem getLast?_pyInsert (x : String) (s : List String) (m : String)
    (hm : s.getLast? = some m) :
    ((pyInsert x s).getLast? = some m ∧ ∃ y ∈ s, strLe x y = true) ∨
      ((pyInsert x s).getLast? = some x ∧ ∀ y ∈ s, strLe y x = true) := by
  induction s with
  | nil => simp at hm
  | cons a as ih =>
    by_cases h : strLe x a = true
    · left
      constructor
      · rw [pyInsert, if_pos h, List.getLast?_cons_cons]
        exact hm
      · exact ⟨a, List.mem_cons_self a as, h⟩
    · have hxa : strLe a x = true := by
        rcases strLe_total x a with h2 | h2
        · exact absurd h2 h
        · exact h2
      cases as with
      | nil =>
        right
        rw [List.getLast?_singleton] at hm
        cases hm
        constructor
        · simp [pyInsert, h, List.getLast?_cons_cons,
            List.getLast?_singleton]
        · intro y hy
          simp at hy
          subst hy
          exact hxa
      | cons b bs =>
        have hm2 : (b :: bs).getLast? = some m := by
          rw [List.getLast?_cons_cons] at hm
          exact hm
        rcases ih hm2 with ⟨h1, y, hy, hxy⟩ | ⟨h1, hall⟩
        · left
          constructor
          · rw [pyInsert, if_neg h,
              getLast?_cons_of_ne_nil a _ (pyInsert_ne_nil x (b :: bs))]
            exact h1
          · exact ⟨y, List.mem_cons_of_mem a hy, hxy⟩
        · right
          constructor
          · rw [pyInsert, if_neg h,
              getLast?_cons_of_ne_nil a _ (pyInsert_ne_nil x (b :: bs))]
            exact h1
          · intro y hy
            rcases List.mem_cons.mp hy with rfl | hy2
            · exact hxa
            · exact hall y hy2

/-- The last element of the sorted list is a maximum of the input. -/
theorem getLast?_pySorted_max (l : List String) (hl : ¬ l = []) :
    ∃ m, (pySorted l).getLast? = some m ∧ m ∈ l ∧
      ∀ x ∈ l, strLe x m = true := by
  induction l with
  | nil => exact absurd rfl hl
  | cons a as ih =>
    cases as with
    | nil =>
      refine ⟨a, ?_, List.mem_cons_self a [], ?_⟩
      · simp [pySorted, pyInsert, List.getLast?_singleton]
      · intro x hx
        simp at hx
        subst hx
        exact strLe_refl _
    | cons b bs =>
      rcases ih (by simp) with ⟨m, hm, hmem, hmax⟩
      rcases getLast?_pyInsert a (pySorted (b :: bs)) m hm with
        ⟨h1, y, hy, hxy⟩ | ⟨h1, hall⟩
      · refine ⟨m, by simpa [pySorted] using h1,
          List.mem_cons_of_mem a hmem, ?_⟩
        intro x hx
        rcases List.mem_cons.mp hx with rfl | hx2
        · exact strLe_trans hxy (hmax y ((mem_pySorted y _).mp hy))
        · exact hmax x hx2
      · refine ⟨a, by simpa [pySorted] using h1, List.mem_cons_self a _, ?_⟩
        intro x hx
        rcases List.mem_cons.mp hx with rfl | hx2
        · exact strLe_refl x
        · exact hall x ((mem_pySorted x _).mpr hx2)

/-! ## Retry-loop lemmas -/

theorem retryGo_success (f : Nat → Except String Nat) :
    ∀ (n attempt delay k : Nat) (a : Nat), attempt ≤ k → k < attempt + n →
      f k = .ok a → (∀ j, attempt ≤ j → j < k → ∃ e, f j = .error e) →
      retryGo f attempt delay n =
        ⟨k + 1 - attempt, (List.range (k - attempt)).map (fun i => delay * 2 ^ i),
         some (.ok a)⟩ := by
  intro n
  induction n with
  | zero =>
    intro attempt delay k a h1 h2 _ _
    omega
  | succ m ih =>
    intro attempt delay k a h1 h2 hok hfail
    rcases Nat.eq_or_lt_of_le h1 with rfl | hlt
    · unfold retryGo
      rw [hok]
      simp
    · rcases hfail attempt (Nat.le_refl _) hlt with ⟨e, he⟩
      have hm : ¬ m = 0 := by omega
      unfold retryGo
      rw [he]
      simp only [hm, if_false]
      rw [ih (attempt + 1) (delay * 2) k a hlt (by omega) hok
        (fun j hj1 hj2 => hfail j (by omega) hj2)]
      have hk : k - attempt = (k - (attempt + 1)) + 1 := by omega
      simp only [RetryResult.mk.injEq]
      refine ⟨by omega, ?_, trivial⟩
      rw [hk, List.range_succ_eq_map, List.map_cons, List.map_map]
      simp only [List.cons.injEq]
      constructor
      · simp
      · apply List.map_congr_left
        intro i _
        simp only [Function.comp_apply, Nat.succ_eq_add_one, pow_succ]
        ring

theorem retryGo_all_fail (f : Nat → Except String Nat) :
    ∀ (n attempt delay : Nat) (e : String), 1 ≤ n →
      (∀ j, attempt ≤ j → j < attempt + n → ∃ e0, f j = .error e0) →
      f (attempt + n - 1) = .error e →
      retryGo f attempt delay n =
        ⟨n, (List.range (n - 1)).map (fun i => delay * 2 ^ i),
         some (.error e)⟩ := by
  intro n
  induction n with
  | zero => intro _ _ _ h; omega
  | succ m ih =>
    intro attempt delay e _ hfail hlast
    cases m with
    | zero =>
      have hl : attempt + 1 - 1 = attempt := by omega
      rw [hl] at hlast
      unfold retryGo
      rw [hlast]
      simp
    | succ m2 =>
      rcases hfail attempt (Nat.le_refl _) (by omega) with ⟨e0, he0⟩
      unfold retryGo
      rw [he0]
      simp only [Nat.succ_ne_zero, if_false]
      rw [ih (attempt + 1) (delay * 2) e (by omega)
        (fun j hj1 hj2 => hfail j (by omega) (by omega))
        (by rw [show attempt + 1 + (m2 + 1) - 1 = attempt + (m2 + 1 + 1) - 1
              from by omega]
            exact hlast)]
      simp only [RetryResult.mk.injEq]
      refine ⟨trivial, ?_, trivial⟩
      rw [show m2 + 1 + 1 - 1 = (m2 + 1 - 1) + 1 from by omega,
        List.range_succ_eq_map, List.map_cons, List.map_map]
      simp only [List.cons.injEq]
      constructor
      · simp
      · apply List.map_congr_left
        intro i _
        simp only [Function.comp_apply, Nat.succ_eq_add_one, pow_succ]
        ring

/-- C3: every gateway call is retried up to `max_retries` attempts (default
3) with exponential backoff 1, 2, 4, ... between failures; if attempt
`k <= max_retries` succeeds after failures, its result is returned and
exactly `k` underlying calls are made; if every attempt fails, the error of
the final attempt propagates unchanged after exactly `max_retries` calls. -/
theorem c3_retry_policy (f : Nat → Except String Nat) (max_retries : Nat)
    (hmax : 1 ≤ max_retries) :
    default_max_retries = 3 ∧
    (∀ k a, 1 ≤ k → k ≤ max_retries → f k = .ok a →
      (∀ j, 1 ≤ j → j < k → ∃ e, f j = .error e) →
      execute_with_retries f max_retries =
        ⟨k, (List.range (k - 1)).map (fun i => 2 ^ i), some (.ok a)⟩) ∧
    (∀ e, (∀ j, 1 ≤ j → j ≤ max_retries → ∃ e0, f j = .error e0) →
      f max_retries = .error e →
      execute_with_retries f max_retries =
        ⟨max_retries, (List.range (max_retries - 1)).map (fun i => 2 ^ i),
         some (.error e)⟩) := by
  refine ⟨rfl, ?_, ?_⟩
  · intro k a hk1 hk2 hok hfail
    unfold execute_with_retries
    rw [retryGo_success f max_retries 1 1 k a hk1 (by omega) hok
      (fun j hj1 hj2 => hfail j hj1 hj2)]
    simp only [RetryResult.mk.injEq]
    refine ⟨by omega, ?_, trivial⟩
    apply List.map_congr_left
    intro i _
    omega
  · intro e hfail hlast
    unfold execute_with_retries
    rw [retryGo_all_fail f max_retries 1 1 e hmax
      (fun j hj1 hj2 => hfail j hj1 (by omega))
      (by rw [show 1 + max_retries - 1 = max_retries from by omega]
          exact hlast)]
    simp only [RetryResult.mk.injEq]
    refine ⟨trivial, ?_, trivial⟩
    apply List.map_congr_left
    intro i _
    omega

/-- Witness for C3: a call failing twice then succeeding on the third
attempt, with `max_retries = 3`, returns the success after exactly three
calls and sleeps 1 then 2 time units; a call failing on all three attempts
raises the third error. -/
theorem c3_retry_policy_witness :
    execute_with_retries
        (fun k => if k < 3 then Except.error ("e" ++ toString k) else .ok 42)
        3 =
      ⟨3, [1, 2], some (.ok 42)⟩ ∧
    execute_with_retries
        (fun k => (Except.error ("e" ++ toString k) : Except String Nat)) 3 =
      ⟨3, [1, 2], some (.error "e3")⟩ := by
  constructor
  · have h := (c3_retry_policy
      (fun k => if k < 3 then Except.error ("e" ++ toString k) else .ok 42) 3
      (by omega)).2.1 3 42 (by omega) (by omega) rfl
      (fun j hj1 hj2 => ⟨"e" ++ toString j, by
        simp only [if_pos hj2]⟩)
    rw [h]
    rfl
  · have h := (c3_retry_policy
      (fun k => (Except.error ("e" ++ toString k) : Except String Nat)) 3
      (by omega)).2.2 "e3"
      (fun j _ _ => ⟨"e" ++ toString j, rfl⟩) rfl
    rw [h]
    rfl

/-! ## Goal-row decoding lemmas -/

theorem chk_ok {α : Type} (k : Except String α) : chk (.ok ()) k = k := rfl

/-- A goal row whose normalized cells all pass the read-side checks decodes
to the record of those cells, with an empty lifecycle status defaulted to
"Active". -/
theorem normalize_goal_row_ok (row : List String)
    (a0 a1 a2 a3 a4 a5 a6 a7 a8 a9 a10 a11 a12 a13 a14 a15 : String)
    (n : Nat)
    (hrow : normalize_row_length row GOAL_HEADERS "Goals" n =
      [a0, a1, a2, a3, a4, a5, a6, a7, a8, a9, a10, a11, a12, a13, a14, a15])
    (hst : GOAL_STATUSES.contains a4 = true)
    (hlc : GOAL_LIFECYCLE_STATUSES.contains
      (if a11 = "" then "Active" else a11) = true)
    (hwp : validate_percentage_field a3 "WeightPercentage" "Goals" n = .ok ())
    (hcp : validate_percentage_field a5 "CompletionPercentage" "Goals" n =
      .ok ())
    (hsd : validate_date_field a6 "StartDate" "Goals" n true = .ok ())
    (hed : validate_date_field a7 "EndDate" "Goals" n true = .ok ())
    (htd : validate_date_field a8 "TargetDate" "Goals" n true = .ok ())
    (hlm : a13 = "" ∨ validate_date_field (splitT0 a13) "LastModified"
      "Goals" n true = .ok ())
    (hg : ¬ a0 = "") (ht : ¬ a1 = "") :
    normalize_goal_row row n =
      .ok ⟨a0, a1, a2, a3, a4, a5, a6, a7, a8, a9, a10,
        (if a11 = "" then "Active" else a11), a12, a13, a14, a15⟩ := by
  have h1 : validate_status a4 GOAL_STATUSES "Goals" n = .ok () :=
    (validate_status_ok_iff _ _ _ _).mpr hst
  have h2 : validate_status (if a11 = "" then "Active" else a11)
      GOAL_LIFECYCLE_STATUSES "Goals" n = .ok () :=
    (validate_status_ok_iff _ _ _ _).mpr hlc
  have h8 : (if ¬ a13 = "" then
      validate_date_field (splitT0 a13) "LastModified" "Goals" n true
    else .ok ()) = .ok () := by
    by_cases ha : a13 = ""
    · simp [ha]
    · rcases hlm with h | h
      · exact absurd h ha
      · simp [ha, h]
  have h9 : validate_non_empty a0 "GoalID" "Goals" n = .ok () :=
    (validate_non_empty_ok_iff _ _ _ _).mpr hg
  have h10 : validate_non_empty a1 "Title" "Goals" n = .ok () :=
    (validate_non_empty_ok_iff _ _ _ _).mpr ht
  unfold normalize_goal_row
  rw [hrow]
  dsimp only [goalRecordOfRow, List.getD, List.get?, Option.getD]
  rw [h1, chk_ok, h2, chk_ok, hwp, chk_ok, hcp, chk_ok, hsd, chk_ok, hed,
    chk_ok, htd, chk_ok, h8, chk_ok, h9, chk_ok, h10, chk_ok]

/-- C5: decoding never fails on a length mismatch — a short row is padded
with empty strings to the header length and a long row truncated to it —
and a Goal row carrying only its first nine cells (through "TargetDate")
still passes validation, reading back with "Owner" and "Notes" (and every
other omitted trailing cell) equal to the empty string. -/
theorem c5_row_length_leniency :
    (∀ (row headers : List String) (sn : String) (rn : Nat),
      (normalize_row_length row headers sn rn).length = headers.length ∧
      (row.length ≤ headers.length →
        normalize_row_length row headers sn rn =
          row ++ List.replicate (headers.length - row.length) "") ∧
      (headers.length ≤ row.length →
        normalize_row_length row headers sn rn =
          row.take headers.length)) ∧
    (∀ (g t d w s c sd ed td : String) (rn : Nat),
      GOAL_STATUSES.contains s = true →
      validate_percentage_field w "WeightPercentage" "Goals" rn = .ok () →
      validate_percentage_field c "CompletionPercentage" "Goals" rn =
        .ok () →
      validate_date_field sd "StartDate" "Goals" rn true = .ok () →
      validate_date_field ed "EndDate" "Goals" rn true = .ok () →
      validate_date_field td "TargetDate" "Goals" rn true = .ok () →
      ¬ g = "" → ¬ t = "" →
      normalize_goal_row [g, t, d, w, s, c, sd, ed, td] rn =
        .ok ⟨g, t, d, w, s, c, sd, ed, td, "", "", "Active", "", "", "",
          ""⟩) := by
  constructor
  · intro row headers sn rn
    unfold normalize_row_length
    by_cases h : row.length < headers.length
    · simp only [h, if_true]
      refine ⟨?_, ?_, ?_⟩
      · rw [List.take_of_length_le (by
          simp only [List.length_append, List.length_replicate]
          omega)]
        simp only [List.length_append, List.length_replicate]
        omega
      · intro _
        rw [List.take_of_length_le (by
          simp only [List.length_append, List.length_replicate]
          omega)]
      · intro hle
        omega
    · simp only [h, if_false]
      refine ⟨?_, ?_, ?_⟩
      · rw [List.length_take]
        omega
      · intro hle
        have he : row.length = headers.length := by omega
        rw [he, Nat.sub_self, List.replicate_zero, List.append_nil,
          List.take_of_length_le (by omega)]
      · intro _
        trivial
  · intro g t d w s c sd ed td rn hst hwp hcp hsd hed htd hg ht
    exact normalize_goal_row_ok [g, t, d, w, s, c, sd, ed, td]
      g t d w s c sd ed td "" "" "" "" "" "" "" rn rfl hst (by decide)
      hwp hcp hsd hed htd (Or.inl rfl) hg ht

/-- Witness for C5: a concrete Goal row with only the first nine cells
decodes successfully with empty Owner and Notes. -/
theorem c5_row_length_leniency_witness :
    normalize_goal_row
        ["G1", "Ship it", "", "50", "In Progress", "25", "", "",
         "2024-12-31"] 2 =
      .ok ⟨"G1", "Ship it", "", "50", "In Progress", "25", "", "",
        "2024-12-31", "", "", "Active", "", "", "", ""⟩ :=
  c5_row_length_leniency.2 "G1" "Ship it" "" "50" "In Progress" "25" "" ""
    "2024-12-31" 2 (by decide) rfl rfl rfl rfl rfl (by decide) (by decide)

/-! ## Round-trip lemmas for C1 -/

/-- If the alias chain validated on write passes the percentage check, the
value actually encoded (first-alias-with-default, then stripped) passes it
too. -/
theorem percentage_strip_bridge (o1 o2 : Option String) (r fn sn : String)
    (n m : Nat)
    (h : validate_percentage_field (orElseStr o1 (orElseStr o2 r)) fn sn n =
      .ok ()) :
    validate_percentage_field (pyStrip (o1.getD (o2.getD ""))) fn sn m =
      .ok () := by
  cases o1 with
  | some v =>
    by_cases hv : v = ""
    · subst hv
      rfl
    · simp only [orElseStr, hv, if_false] at h
      exact validate_percentage_strip v fn sn n m h
  | none =>
    cases o2 with
    | some w =>
      by_cases hw : w = ""
      · subst hw
        rfl
      · simp only [orElseStr, hw, if_false, Option.getD] at h ⊢
        exact validate_percentage_strip w fn sn n m h
    | none => rfl

/-- C1 (amended): decoding the encoded row of a record that passes write
validation (and whose resolved last-modified value is empty or carries a
valid date part) succeeds and returns exactly the encoded cell contents:
every field is read back as the string that was written — the alias-resolved
input values, except that the two percentage fields and the archived flag
are whitespace-stripped by encoding and that empty lifecycle-status and
last-modified values are replaced by their write-time defaults.  (A
completion percentage "50" reads back as "50".) -/
theorem c1_round_trip (g : Record) (now : String) (n : Nat)
    (hval : validate_goal g = .ok ())
    (hlm : goal_res_lastmodified g now = "" ∨
      isValidDate (splitT0 (goal_res_lastmodified g now)) = true) :
    normalize_goal_row (encode_goal g now) n =
      .ok ⟨goal_res_goalid g, rgetD g "title" "", rgetD g "description" "",
        goal_res_weight g, rgetD g "status" "", goal_res_completion g,
        goal_res_startdate g, goal_res_enddate g, goal_res_targetdate g,
        rgetD g "owner" "", rgetD g "notes" "", goal_res_lifecycle g,
        goal_res_supersededby g, goal_res_lastmodified g now,
        goal_res_archived g, rgetD g "history" ""⟩ := by
  simp only [validate_goal, chk_ok_iff, and_true] at hval
  obtain ⟨hst, hlc, hwp, hcp, hsd, hed, htd, hgid, hti⟩ := hval
  have hstc := (validate_status_ok_iff _ _ _ _).mp hst
  have hlcc := (validate_status_ok_iff _ _ _ _).mp hlc
  have hlcne : ¬ goal_res_lifecycle g = "" := by
    intro he
    rw [he] at hlcc
    cases hlcc
  have hgidne := (validate_non_empty_ok_iff _ _ _ _).mp hgid
  have htine := (validate_non_empty_ok_iff _ _ _ _).mp hti
  have hres := normalize_goal_row_ok (encode_goal g now)
    (goal_res_goalid g) (rgetD g "title" "") (rgetD g "description" "")
    (goal_res_weight g) (rgetD g "status" "") (goal_res_completion g)
    (goal_res_startdate g) (goal_res_enddate g) (goal_res_targetdate g)
    (rgetD g "owner" "") (rgetD g "notes" "") (goal_res_lifecycle g)
    (goal_res_supersededby g) (goal_res_lastmodified g now)
    (goal_res_archived g) (rgetD g "history" "") n rfl hstc
    (by rw [if_neg hlcne]; exact hlcc)
    (percentage_strip_bridge _ _ _ _ _ 0 n hwp)
    (percentage_strip_bridge _ _ _ _ _ 0 n hcp)
    (validate_date_ok_row_irrel _ _ _ 0 n true hsd)
    (validate_date_ok_row_irrel _ _ _ 0 n true hed)
    (validate_date_ok_row_irrel _ _ _ 0 n true htd)
    (by
      rcases hlm with h | h
      · exact Or.inl h
      · exact Or.inr ((validate_date_ok_iff _ _ _ _ _).mpr (Or.inr h)))
    hgidne htine
  rw [hres, if_neg hlcne]

/-- C1 counterexample: this record passes write validation, yet its
archived field " yes " is stripped to "yes" by encoding, so decoding the
encoded row does not return the original record — field content is not
preserved exactly for every valid record. -/
theorem c1_round_trip_counterexample :
    validate_goal [("goalid", "G1"), ("title", "T"),
        ("status", "Not Started"), ("archived", " yes ")] = .ok () ∧
    rgetD [("goalid", "G1"), ("title", "T"), ("status", "Not Started"),
        ("archived", " yes ")] "archived" "" = " yes " ∧
    normalize_goal_row
        (encode_goal [("goalid", "G1"), ("title", "T"),
          ("status", "Not Started"), ("archived", " yes ")]
          "2024-01-02T00:00:00") 2 =
      .ok ⟨"G1", "T", "", "", "Not Started", "", "", "", "", "", "",
        "Active", "", "2024-01-02T00:00:00", "yes", ""⟩ :=
  ⟨rfl, rfl, rfl⟩

/-- Witness for C1: a concrete valid record with completion percentage
"50" round-trips with every encoded field preserved ("50" stays "50"). -/
theorem c1_round_trip_witness :
    validate_goal [("goalid", "G1"), ("title", "T"),
        ("status", "Not Started"), ("completionpercentage", "50")] =
      .ok () ∧
    normalize_goal_row
        (encode_goal [("goalid", "G1"), ("title", "T"),
          ("status", "Not Started"), ("completionpercentage", "50")]
          "2024-01-02T00:00:00") 0 =
      .ok ⟨"G1", "T", "", "", "Not Started", "50", "", "", "", "", "",
        "Active", "", "2024-01-02T00:00:00", "", ""⟩ := by
  constructor
  · rfl
  · have h := c1_round_trip
      [("goalid", "G1"), ("title", "T"), ("status", "Not Started"),
        ("completionpercentage", "50")]
      "2024-01-02T00:00:00" 0 rfl (Or.inr rfl)
    exact h

/-- C2: appending a GoalMapping whose goal id and competency id are both
non-empty raises a validation error, as does one with neither; with exactly
one non-empty id the pre-write validation passes.  On read, a stored row
with both ids populated is accepted (with the legacy dual-link warning,
recorded as the boolean in the result), while a stored row with neither
raises. -/
theorem c2_mapping_exclusivity (m : Record) (ts dt gid cid nts : String)
    (n : Nat) (hts : ¬ mapping_res_timestamp m = "")
    (hdt : isValidDate (mapping_res_date m) = true)
    (hts2 : ¬ ts = "") (hdt2 : isValidDate dt = true) :
    (¬ mapping_res_goalid m = "" → ¬ mapping_res_competencyid m = "" →
      validate_goal_mapping m = .error
        "GoalMappings append accepts either a GoalID or CompetencyID, not both") ∧
    (mapping_res_goalid m = "" → mapping_res_competencyid m = "" →
      validate_goal_mapping m = .error
        "GoalMappings append requires exactly one of GoalID or CompetencyID") ∧
    ((¬ mapping_res_goalid m = "" ∧ mapping_res_competencyid m = "") ∨
      (mapping_res_goalid m = "" ∧ ¬ mapping_res_competencyid m = "") →
      validate_goal_mapping m = .ok ()) ∧
    (¬ gid = "" → ¬ cid = "" →
      normalize_goal_mapping_row [ts, dt, gid, cid, nts] n =
        .ok (⟨ts, dt, gid, cid, nts⟩, true)) ∧
    (gid = "" → cid = "" →
      normalize_goal_mapping_row [ts, dt, gid, cid, nts] n =
        .error ("GoalMappings row requires exactly one of GoalID or CompetencyID" ++
          " (sheet \x27GoalMappings\x27, row " ++ toString n ++ ")")) := by
  have h1 : validate_non_empty (mapping_res_timestamp m) "EntryTimestamp"
      "GoalMappings" 0 = .ok () := (validate_non_empty_ok_iff _ _ _ _).mpr hts
  have h2 : validate_date_field (mapping_res_date m) "EntryDate"
      "GoalMappings" 0 false = .ok () :=
    (validate_date_ok_iff _ _ _ _ _).mpr (Or.inr hdt)
  have h1r : validate_non_empty ts "EntryTimestamp" "GoalMappings" n =
      .ok () := (validate_non_empty_ok_iff _ _ _ _).mpr hts2
  have h2r : validate_date_field dt "EntryDate" "GoalMappings" n false =
      .ok () := (validate_date_ok_iff _ _ _ _ _).mpr (Or.inr hdt2)
  refine ⟨?_, ?_, ?_, ?_, ?_⟩
  · intro hg hc
    unfold validate_goal_mapping
    rw [h1, chk_ok, h2, chk_ok, if_pos (by simp [hg, hc])]
  · intro hg hc
    unfold validate_goal_mapping
    rw [h1, chk_ok, h2, chk_ok, if_neg (by simp [hg]),
      if_pos (by simp [hg, hc])]
  · intro hcase
    unfold validate_goal_mapping
    rcases hcase with ⟨hg, hc⟩ | ⟨hg, hc⟩
    · rw [h1, chk_ok, h2, chk_ok, if_neg (by simp [hc]),
        if_neg (by simp [hg])]
    · rw [h1, chk_ok, h2, chk_ok, if_neg (by simp [hg]),
        if_neg (by simp [hc])]
  · intro hg hc
    unfold normalize_goal_mapping_row
    rw [show normalize_row_length [ts, dt, gid, cid, nts]
      GOAL_MAPPING_HEADERS "GoalMappings" n = [ts, dt, gid, cid, nts]
      from rfl]
    dsimp only [mappingRecordOfRow, List.getD, List.get?, Option.getD]
    rw [h1r, chk_ok, h2r, chk_ok, if_neg (by simp [hg])]
    simp [hg, hc]
  · intro hg hc
    unfold normalize_goal_mapping_row
    rw [show normalize_row_length [ts, dt, gid, cid, nts]
      GOAL_MAPPING_HEADERS "GoalMappings" n = [ts, dt, gid, cid, nts]
      from rfl]
    dsimp only [mappingRecordOfRow, List.getD, List.get?, Option.getD]
    rw [h1r, chk_ok, h2r, chk_ok, if_pos (by simp [hg, hc])]

/-- Witness for C2 at concrete inputs: both-ids append fails, neither-ids
append fails, single-id append passes; a dual-link stored row reads back
with the warning and a no-id stored row raises. -/
theorem c2_mapping_exclusivity_witness :
    validate_goal_mapping
        [("entrytimestamp", "2024-01-01T00:00:00"),
         ("entrydate", "2024-01-01"), ("goalid", "G1"),
         ("competencyid", "C1")] = .error
      "GoalMappings append accepts either a GoalID or CompetencyID, not both" ∧
    validate_goal_mapping
        [("entrytimestamp", "2024-01-01T00:00:00"),
         ("entrydate", "2024-01-01")] = .error
      "GoalMappings append requires exactly one of GoalID or CompetencyID" ∧
    validate_goal_mapping
        [("entrytimestamp", "2024-01-01T00:00:00"),
         ("entrydate", "2024-01-01"), ("goalid", "G1")] = .ok () ∧
    normalize_goal_mapping_row
        ["2024-01-01T00:00:00", "2024-01-01", "G1", "C1", ""] 2 =
      .ok (⟨"2024-01-01T00:00:00", "2024-01-01", "G1", "C1", ""⟩, true) ∧
    normalize_goal_mapping_row
        ["2024-01-01T00:00:00", "2024-01-01", "", "", ""] 3 =
      .error ("GoalMappings row requires exactly one of GoalID or CompetencyID" ++
        " (sheet \x27GoalMappings\x27, row " ++ toString 3 ++ ")") := by
  have hboth := c2_mapping_exclusivity
    [("entrytimestamp", "2024-01-01T00:00:00"), ("entrydate", "2024-01-01"),
      ("goalid", "G1"), ("competencyid", "C1")]
    "2024-01-01T00:00:00" "2024-01-01" "G1" "C1" "" 2
    (by decide) rfl (by decide) rfl
  have hnone := c2_mapping_exclusivity
    [("entrytimestamp", "2024-01-01T00:00:00"), ("entrydate", "2024-01-01")]
    "2024-01-01T00:00:00" "2024-01-01" "" "" "" 3
    (by decide) rfl (by decide) rfl
  have hone := c2_mapping_exclusivity
    [("entrytimestamp", "2024-01-01T00:00:00"), ("entrydate", "2024-01-01"),
      ("goalid", "G1")]
    "2024-01-01T00:00:00" "2024-01-01" "G1" "" "" 2
    (by decide) rfl (by decide) rfl
  refine ⟨hboth.1 (by decide) (by decide), hnone.2.1 rfl rfl,
    hone.2.2.1 (Or.inl ⟨by decide, rfl⟩), hboth.2.2.2.1 (by decide)
      (by decide), hnone.2.2.2.2 rfl rfl⟩

/-! ## Write/read validation symmetry (C9) -/

/-- Whether a call completed without raising. -/
def exceptOk {ε α : Type} : Except ε α → Bool
  | .ok _ => true
  | .error _ => false

theorem exceptOk_ok {ε α : Type} (x : α) :
    exceptOk (Except.ok x : Except ε α) = true := rfl

theorem exceptOk_error {ε α : Type} (e : ε) :
    exceptOk (Except.error e : Except ε α) = false := rfl

theorem chk_exceptOk {α : Type} (a : Except String Unit)
    (k : Except String α) : exceptOk (chk a k) = (exceptOk a && exceptOk k) := by
  cases a with
  | ok u => cases u; rfl
  | error e => rfl

theorem exceptOk_validate_non_empty (v f s : String) (n : Nat) :
    exceptOk (validate_non_empty v f s n) = (if v = "" then false else true) := by
  by_cases h : v = "" <;> simp [validate_non_empty, h, exceptOk]

theorem exceptOk_validate_status (v : String) (al : List String) (s : String)
    (n : Nat) : exceptOk (validate_status v al s n) = al.contains v := by
  cases h : al.contains v with
  | true => rw [validate_status, if_pos h]; rfl
  | false =>
    rw [validate_status, if_neg (by rw [h]; exact Bool.false_ne_true)]
    rfl

theorem exceptOk_validate_date (v f s : String) (n : Nat) (ae : Bool) :
    exceptOk (validate_date_field v f s n ae) =
      ((v = "" && ae) || isValidDate v) := by
  by_cases h1 : (v = "" && ae) = true
  · simp [validate_date_field, h1, exceptOk]
  · rw [validate_date_field, if_neg h1]
    by_cases h2 : isValidDate v = true
    · simp [h2, exceptOk, h1]
    · simp only [h2, if_false, exceptOk]
      cases hb1 : (v = "" && ae : Bool)
      · cases hb2 : isValidDate v
        · rfl
        · exact absurd hb2 h2
      · exact absurd hb1 h1

/-- C9 (amended): for GoalMilestone records whose status field is
non-empty, the pre-write validation and the read-side row validation accept
and reject exactly the same records; (the counterexample shows the empty
status case is the one asymmetry: rejected on write, defaulted to
"Not Started" and accepted on read). -/
theorem c9_milestone_validation_symmetry (g t td cd s nts : String)
    (n : Nat) (hs : ¬ s = "") :
    exceptOk (validate_goal_milestone
        [("goalid", g), ("title", t), ("targetdate", td),
         ("completiondate", cd), ("status", s), ("notes", nts)]) =
      exceptOk (normalize_goal_milestone_row [g, t, td, cd, s, nts] n) := by
  have hW : validate_goal_milestone
      [("goalid", g), ("title", t), ("targetdate", td),
       ("completiondate", cd), ("status", s), ("notes", nts)] =
    chk (validate_non_empty (if g = "" then "" else g) "GoalID"
        "GoalMilestones" 0)
      (chk (validate_non_empty (if t = "" then "" else t) "Title"
          "GoalMilestones" 0)
        (chk (validate_status s GOAL_MILESTONE_STATUSES "GoalMilestones" 0)
          (chk (validate_date_field (if td = "" then "" else td)
              "TargetDate" "GoalMilestones" 0 true)
            (chk (validate_date_field (if cd = "" then "" else cd)
                "CompletionDate" "GoalMilestones" 0 true)
              (.ok ()))))) := rfl
  have hR : normalize_goal_milestone_row [g, t, td, cd, s, nts] n =
    chk (validate_non_empty g "GoalID" "GoalMilestones" n)
      (chk (validate_non_empty t "Title" "GoalMilestones" n)
        (chk (validate_status (if s = "" then "Not Started" else s)
            GOAL_MILESTONE_STATUSES "GoalMilestones" n)
          (chk (validate_date_field td "TargetDate" "GoalMilestones" n true)
            (chk (validate_date_field cd "CompletionDate" "GoalMilestones"
                n true)
              (.ok ⟨g, t, td, cd,
                if s = "" then "Not Started" else s, nts⟩))))) := rfl
  have idg : (if g = "" then "" else g) = g := by
    by_cases h : g = "" <;> simp [h]
  have idt : (if t = "" then "" else t) = t := by
    by_cases h : t = "" <;> simp [h]
  have idtd : (if td = "" then "" else td) = td := by
    by_cases h : td = "" <;> simp [h]
  have idcd : (if cd = "" then "" else cd) = cd := by
    by_cases h : cd = "" <;> simp [h]
  rw [hW, hR, if_neg hs, idg, idt, idtd, idcd]
  simp only [chk_exceptOk, exceptOk_validate_non_empty,
    exceptOk_validate_status, exceptOk_validate_date, exceptOk_ok,
    Bool.and_true]

/-- C9 counterexample: a milestone row whose status cell is empty is
accepted on read (defaulted to "Not Started"), while the same record with
an explicitly empty status submitted as a fresh write is rejected — the
two validation directions do not accept exactly the same records. -/
theorem c9_milestone_validation_symmetry_counterexample :
    exceptOk (normalize_goal_milestone_row ["G1", "T", "", "", "", ""] 2) =
      true ∧
    exceptOk (validate_goal_milestone
        [("goalid", "G1"), ("title", "T"), ("targetdate", ""),
         ("completiondate", ""), ("status", ""), ("notes", "")]) = false :=
  ⟨rfl, rfl⟩

/-- Witness for C9 at a concrete record with non-empty status. -/
theorem c9_milestone_validation_symmetry_witness :
    exceptOk (validate_goal_milestone
        [("goalid", "G1"), ("title", "T"), ("targetdate", ""),
         ("completiondate", "2024-06-01"), ("status", "Completed"),
         ("notes", "")]) =
      exceptOk (normalize_goal_milestone_row
        ["G1", "T", "", "2024-06-01", "Completed", ""] 5) :=
  c9_milestone_validation_symmetry "G1" "T" "" "2024-06-01" "Completed" "" 5
    (by decide)

/-- C4 (amended): for the seven entities with a pre-write validator
(goals, competencies, mappings, milestones, reviews, goal evaluations,
competency evaluations), a validation failure aborts the append before any
gateway operation: no network call is made and the validation error is
raised.  (The counterexample shows the two remaining entities — work-log
entries and reminder settings — perform no pre-write validation at all, so
the original for-every-entity claim fails.) -/
theorem c4_validation_before_network :
    (∀ env inited g now e, validate_goal g = .error e →
      append_goal env inited g now = ([], .error e)) ∧
    (∀ env inited c e, validate_competency c = .error e →
      append_competency env inited c = ([], .error e)) ∧
    (∀ env inited m e, validate_goal_mapping m = .error e →
      append_goal_mapping env inited m = ([], .error e)) ∧
    (∀ env inited m e, validate_goal_milestone m = .error e →
      append_goal_milestone env inited m = ([], .error e)) ∧
    (∀ env inited r today e, validate_goal_review r today = .error e →
      append_goal_review env inited r today = ([], .error e)) ∧
    (∀ env inited r today e, validate_goal_evaluation r today = .error e →
      append_goal_evaluation env inited r today = ([], .error e)) ∧
    (∀ env inited r today e, validate_competency_evaluation r today =
        .error e →
      append_competency_evaluation env inited r today = ([], .error e)) := by
  refine ⟨?_, ?_, ?_, ?_, ?_, ?_, ?_⟩
  · intro env inited g now e h
    unfold append_goal
    rw [h]
  · intro env inited c e h
    unfold append_competency
    rw [h]
  · intro env inited m e h
    unfold append_goal_mapping
    rw [h]
  · intro env inited m e h
    unfold append_goal_milestone
    rw [h]
  · intro env inited r today e h
    unfold append_goal_review
    rw [h]
  · intro env inited r today e h
    unfold append_goal_evaluation
    rw [h]
  · intro env inited r today e h
    unfold append_competency_evaluation
    rw [h]

/-- C4 counterexample: appending a reminder setting with the required
category field missing performs gateway calls — including the append
itself, which writes a row that the read-side validator rejects — instead
of failing validation before any network call. -/
theorem c4_validation_before_network_counterexample :
    append_reminder_setting
        ⟨["ReminderSettings"],
         fun t => if t = "ReminderSettings" then [REMINDER_SETTINGS_HEADERS]
           else [], 1⟩
        [] [] =
      ([.getMetadata, .getHeaders "ReminderSettings",
        .appendRow "ReminderSettings" ["", "", "", "True", "", ""]],
       .ok ["ReminderSettings"]) ∧
    normalize_reminder_setting_row ["", "", "", "True", "", ""] 2 =
      .error ("Field \x27Category\x27 is required in sheet " ++
        "\x27ReminderSettings\x27 at row 2") :=
  ⟨rfl, rfl⟩

/-- Witness for C4: an empty goal record fails status validation and its
append performs zero gateway operations. -/
theorem c4_validation_before_network_witness :
    append_goal ⟨[], fun _ => [], 0⟩ [] [] "2024-01-02T00:00:00" =
      ([], .error ("Invalid status \x27\x27 in sheet \x27Goals\x27 at row " ++
        "0. Allowed: [\x27Blocked\x27, \x27Completed\x27, \x27Deferred\x27," ++
        " \x27In Progress\x27, \x27Not Started\x27]")) := by
  have h := c4_validation_before_network.1 ⟨[], fun _ => [], 0⟩ [] []
    "2024-01-02T00:00:00"
    ("Invalid status \x27\x27 in sheet \x27Goals\x27 at row " ++
      "0. Allowed: [\x27Blocked\x27, \x27Completed\x27, \x27Deferred\x27," ++
      " \x27In Progress\x27, \x27Not Started\x27]") rfl
  exact h

/-! ## Sheet-initializer lemmas (C6) -/

theorem ensure_init_missing_sheet (env : RemoteEnv) (inited : List String)
    (sheet : String) (headers : List String) (au : Bool)
    (hni : inited.contains sheet = false)
    (habs : env.sheetTitles.contains sheet = false) :
    ensure_sheet_initialized_for env inited sheet headers false au =
      ([.getMetadata],
       .error ("Sheet \x27" ++ sheet ++
         "\x27 is missing. Please create it with the expected headers.")) := by
  unfold ensure_sheet_initialized_for ensure_init_body ensure_sheet_exists
  rw [if_neg (by rw [hni]; exact Bool.false_ne_true),
    if_neg (by rw [habs]; exact Bool.false_ne_true), if_pos rfl]

theorem ensure_init_header_mismatch (env : RemoteEnv) (inited : List String)
    (sheet : String) (headers : List String)
    (hni : inited.contains sheet = false)
    (hpres : env.sheetTitles.contains sheet = true)
    (hmis : ¬ (¬ env.headerRows sheet = [] ∧
      ((env.headerRows sheet).headD []).take headers.length = headers)) :
    ensure_sheet_initialized_for env inited sheet headers false false =
      ([.getMetadata, .getHeaders sheet],
       .error ("Sheet \x27" ++ sheet ++ "\x27 header mismatch. Expected " ++
         pyListRepr headers ++ ", found " ++
         foundHeaderStr (env.headerRows sheet))) := by
  unfold ensure_sheet_initialized_for ensure_init_body ensure_sheet_exists
    ensure_headers
  rw [if_neg (by rw [hni]; exact Bool.false_ne_true), if_pos hpres,
    if_neg hmis, if_pos rfl]
  rfl

theorem ensure_init_entry_creates (env : RemoteEnv) (inited : List String)
    (sheet : String)
    (hni : inited.contains sheet = false)
    (habs : env.sheetTitles.contains sheet = false)
    (hhdr : env.headerRows sheet = []) :
    ensure_sheet_setup env inited sheet =
      ([.getMetadata, .createSheet sheet, .getHeaders sheet,
        .updateHeaders sheet ACCOMPLISHMENTS_HEADERS],
       .ok (inited ++ [sheet])) := by
  unfold ensure_sheet_setup ensure_sheet_initialized_for ensure_init_body
    ensure_sheet_exists ensure_headers
  rw [if_neg (by rw [hni]; exact Bool.false_ne_true),
    if_neg (by rw [habs]; exact Bool.false_ne_true),
    if_neg (by decide),
    if_neg (by rw [hhdr]; exact fun hc => hc.1 rfl),
    if_neg (by decide)]
  rfl

theorem ensure_init_entry_rewrites_header (env : RemoteEnv)
    (inited : List String) (sheet : String)
    (hni : inited.contains sheet = false)
    (hpres : env.sheetTitles.contains sheet = true)
    (hmis : ¬ (¬ env.headerRows sheet = [] ∧
      ((env.headerRows sheet).headD []).take
        ACCOMPLISHMENTS_HEADERS.length = ACCOMPLISHMENTS_HEADERS)) :
    ensure_sheet_setup env inited sheet =
      ([.getMetadata, .getHeaders sheet,
        .updateHeaders sheet ACCOMPLISHMENTS_HEADERS],
       .ok (inited ++ [sheet])) := by
  unfold ensure_sheet_setup ensure_sheet_initialized_for ensure_init_body
    ensure_sheet_exists ensure_headers
  rw [if_neg (by rw [hni]; exact Bool.false_ne_true), if_pos hpres,
    if_neg hmis, if_neg (by decide)]
  rfl

/-- C6: on first touch of a sheet, every domain entity (Goals,
Competencies, GoalMappings, GoalMilestones, reviews, both evaluations,
reminder settings) is configured with creation and header rewriting
disallowed, so a missing sheet raises the "missing sheet" error after only
the metadata fetch (no creation), and a header mismatch raises after only
the metadata fetch and the header read (no header write); only the
entry-log sheet is created when absent and has its header rewritten when
mismatched. -/
theorem c6_sheet_provisioning_policy :
    (∀ cfg, cfg ∈ domain_sheet_configs →
      cfg.create_if_missing = false ∧ cfg.allow_header_update = false) ∧
    (∀ cfg env inited, cfg ∈ domain_sheet_configs →
      inited.contains cfg.sheet = false →
      env.sheetTitles.contains cfg.sheet = false →
      ensure_sheet_initialized_for env inited cfg.sheet cfg.headers
          cfg.create_if_missing cfg.allow_header_update =
        ([.getMetadata],
         .error ("Sheet \x27" ++ cfg.sheet ++
           "\x27 is missing. Please create it with the expected headers."))) ∧
    (∀ cfg env inited, cfg ∈ domain_sheet_configs →
      inited.contains cfg.sheet = false →
      env.sheetTitles.contains cfg.sheet = true →
      ¬ (¬ env.headerRows cfg.sheet = [] ∧
        ((env.headerRows cfg.sheet).headD []).take cfg.headers.length =
          cfg.headers) →
      ∃ e, ensure_sheet_initialized_for env inited cfg.sheet cfg.headers
          cfg.create_if_missing cfg.allow_header_update =
        ([.getMetadata, .getHeaders cfg.sheet], .error e)) ∧
    (∀ env inited sheet, inited.contains sheet = false →
      env.sheetTitles.contains sheet = false →
      env.headerRows sheet = [] →
      ensure_sheet_setup env inited sheet =
        ([.getMetadata, .createSheet sheet, .getHeaders sheet,
          .updateHeaders sheet ACCOMPLISHMENTS_HEADERS],
         .ok (inited ++ [sheet]))) ∧
    (∀ env inited sheet, inited.contains sheet = false →
      env.sheetTitles.contains sheet = true →
      ¬ (¬ env.headerRows sheet = [] ∧
        ((env.headerRows sheet).headD []).take
          ACCOMPLISHMENTS_HEADERS.length = ACCOMPLISHMENTS_HEADERS) →
      ensure_sheet_setup env inited sheet =
        ([.getMetadata, .getHeaders sheet,
          .updateHeaders sheet ACCOMPLISHMENTS_HEADERS],
         .ok (inited ++ [sheet]))) := by
  have hflags : ∀ cfg, cfg ∈ domain_sheet_configs →
      cfg.create_if_missing = false ∧ cfg.allow_header_update = false := by
    intro cfg h
    simp only [domain_sheet_configs, List.mem_cons, List.not_mem_nil,
      or_false] at h
    rcases h with rfl | rfl | rfl | rfl | rfl | rfl | rfl | rfl <;>
      exact ⟨rfl, rfl⟩
  refine ⟨hflags, ?_, ?_, ?_, ?_⟩
  · intro cfg env inited hmem hni habs
    obtain ⟨hc, _⟩ := hflags cfg hmem
    rw [hc]
    exact ensure_init_missing_sheet env inited cfg.sheet cfg.headers _ hni
      habs
  · intro cfg env inited hmem hni hpres hmis
    obtain ⟨hc, ha⟩ := hflags cfg hmem
    rw [hc, ha]
    exact ⟨_, ensure_init_header_mismatch env inited cfg.sheet cfg.headers
      hni hpres hmis⟩
  · exact ensure_init_entry_creates
  · exact ensure_init_entry_rewrites_header

/-- Witness for C6 at concrete environments: a missing Goals sheet raises
without a creation call; a mismatched Goals header raises after only the
header read; the absent entry-log sheet is created and its header written;
a mismatched entry-log header is rewritten. -/
theorem c6_sheet_provisioning_policy_witness :
    ensure_sheet_initialized_for ⟨[], fun _ => [], 1⟩ [] "Goals"
        GOAL_HEADERS false false =
      ([.getMetadata],
       .error ("Sheet \x27Goals\x27 is missing. " ++
         "Please create it with the expected headers.")) ∧
    (∃ e, ensure_sheet_initialized_for
        ⟨["Goals"], fun _ => [["Wrong"]], 1⟩ [] "Goals" GOAL_HEADERS false
        false = ([.getMetadata, .getHeaders "Goals"], .error e)) ∧
    ensure_sheet_setup ⟨[], fun _ => [], 1⟩ [] "Accomplishments" =
      ([.getMetadata, .createSheet "Accomplishments",
        .getHeaders "Accomplishments",
        .updateHeaders "Accomplishments" ACCOMPLISHMENTS_HEADERS],
       .ok ["Accomplishments"]) ∧
    ensure_sheet_setup ⟨["Accomplishments"], fun _ => [["Wrong"]], 1⟩ []
        "Accomplishments" =
      ([.getMetadata, .getHeaders "Accomplishments",
        .updateHeaders "Accomplishments" ACCOMPLISHMENTS_HEADERS],
       .ok ["Accomplishments"]) := by
  refine ⟨?_, ?_, ?_, ?_⟩
  · have h := c6_sheet_provisioning_policy.2.1
      ⟨"Goals", GOAL_HEADERS, false, false⟩ ⟨[], fun _ => [], 1⟩ []
      (by simp [domain_sheet_configs]) rfl rfl
    exact h
  · have h := c6_sheet_provisioning_policy.2.2.1
      ⟨"Goals", GOAL_HEADERS, false, false⟩
      ⟨["Goals"], fun _ => [["Wrong"]], 1⟩ []
      (by simp [domain_sheet_configs]) rfl rfl (by decide)
    exact h
  · have h := c6_sheet_provisioning_policy.2.2.2.1 ⟨[], fun _ => [], 1⟩ []
      "Accomplishments" rfl rfl rfl
    exact h
  · have h := c6_sheet_provisioning_policy.2.2.2.2
      ⟨["Accomplishments"], fun _ => [["Wrong"]], 1⟩ [] "Accomplishments"
      rfl rfl (by decide)
    exact h

/-! ## Status error reporting (C7) -/

/-- The f-string built by `_validate_status` for an invalid enum value. -/
def status_error_message (value sheet : String) (n : Nat)
    (allowed : List String) : String :=
  "Invalid status \x27" ++ value ++ "\x27 in sheet \x27" ++ sheet ++
    "\x27 at row " ++ toString n ++ ". Allowed: " ++
    pyListRepr (pySorted allowed)

theorem validate_status_invalid (value : String) (allowed : List String)
    (sheet : String) (n : Nat) (h : allowed.contains value = false) :
    validate_status value allowed sheet n =
      .error (status_error_message value sheet n allowed) := by
  unfold validate_status status_error_message
  rw [if_neg (by rw [h]; exact Bool.false_ne_true)]

theorem joinQuoted_mem_split (a : String) (l : List String) (h : a ∈ l) :
    ∃ p q, joinQuoted l = p ++ a ++ q := by
  induction l with
  | nil => cases h
  | cons x xs ih =>
    rcases List.mem_cons.mp h with rfl | h2
    · cases xs with
      | nil => exact ⟨"\x27", "\x27", rfl⟩
      | cons y ys =>
        refine ⟨"\x27", "\x27, " ++ joinQuoted (y :: ys), ?_⟩
        simp [joinQuoted, pyQuoted, String.append_assoc]
    · cases xs with
      | nil => cases h2
      | cons y ys =>
        obtain ⟨p, q, hpq⟩ := ih h2
        refine ⟨pyQuoted x ++ ", " ++ p, q, ?_⟩
        rw [joinQuoted, hpq]
        simp [String.append_assoc]

theorem pyListRepr_mem_split (a : String) (l : List String) (h : a ∈ l) :
    ∃ p q, pyListRepr l = p ++ a ++ q := by
  obtain ⟨p, q, hpq⟩ := joinQuoted_mem_split a l h
  refine ⟨"[" ++ p, q ++ "]", ?_⟩
  rw [pyListRepr, hpq]
  simp [String.append_assoc]

/-- The status cell of a raw Goal row after shape normalization. -/
def statusOfRow (row : List String) : String :=
  (goalRecordOfRow (normalize_row_length row GOAL_HEADERS "Goals" 0)).status

/-- A Goal row whose status cell is outside the enum fails decoding with
exactly the status error message for its row number. -/
theorem normalize_goal_row_status_invalid (row : List String) (m : Nat)
    (h : GOAL_STATUSES.contains (statusOfRow row) = false) :
    normalize_goal_row row m =
      .error (status_error_message (statusOfRow row) "Goals" m
        GOAL_STATUSES) := by
  unfold normalize_goal_row
  dsimp only
  rw [show (goalRecordOfRow
      (normalize_row_length row GOAL_HEADERS "Goals" m)).status =
    statusOfRow row from rfl]
  rw [validate_status_invalid _ _ _ _ h]
  rfl

/-- Decoding stops at the first bad row: if every row before index `i`
decodes, and row `i` has an invalid status, the whole read fails with the
status message for sheet row `m + i`. -/
theorem decode_goal_rows_from_status_invalid :
    ∀ (rows : List (List String)) (m i : Nat) (row : List String),
      rows.get? i = some row →
      (∀ j row2, j < i → rows.get? j = some row2 →
        exceptOk (normalize_goal_row row2 (m + j)) = true) →
      GOAL_STATUSES.contains (statusOfRow row) = false →
      decode_goal_rows_from rows m =
        .error (status_error_message (statusOfRow row) "Goals" (m + i)
          GOAL_STATUSES) := by
  intro rows
  induction rows with
  | nil =>
    intro m i row hget
    simp at hget
  | cons r rs ih =>
    intro m i row hget hprev hbad
    cases i with
    | zero =>
      simp at hget
      subst hget
      unfold decode_goal_rows_from
      rw [normalize_goal_row_status_invalid _ m hbad]
      rfl
    | succ i2 =>
      have hget2 : rs.get? i2 = some row := by simpa using hget
      have hr : exceptOk (normalize_goal_row r m) = true := by
        have := hprev 0 r (Nat.succ_pos i2) (by simp)
        simpa using this
      cases hrr : normalize_goal_row r m with
      | error e =>
        rw [hrr] at hr
        cases hr
      | ok g =>
        unfold decode_goal_rows_from
        rw [hrr]
        have hprev2 : ∀ j row2, j < i2 → rs.get? j = some row2 →
            exceptOk (normalize_goal_row row2 (m + 1 + j)) = true := by
          intro j row2 hj hg
          have := hprev (j + 1) row2 (by omega) (by simpa using hg)
          rw [show m + 1 + j = m + (j + 1) from by omega]
          exact this
        rw [ih (m + 1) i2 row hget2 hprev2 hbad,
          show m + 1 + i2 = m + (i2 + 1) from by omega]

/-- C7: an enum-status validation failure reports the offending value, the
sheet name, the row identifier, and the full allowed set in its message;
the pre-write goal validator reports row 0, and the read path reports the
1-based sheet row number (data rows are numbered from 2, below the header
row). -/
theorem c7_status_error_naming :
    (∀ (value : String) (allowed : List String) (sheet : String) (n : Nat),
      allowed.contains value = false →
      validate_status value allowed sheet n =
        .error (status_error_message value sheet n allowed)) ∧
    (∀ (value sheet : String) (n : Nat) (allowed : List String),
      (∃ p q, status_error_message value sheet n allowed =
        p ++ value ++ q) ∧
      (∃ p q, status_error_message value sheet n allowed =
        p ++ sheet ++ q) ∧
      (∃ p q, status_error_message value sheet n allowed =
        p ++ toString n ++ q) ∧
      (∀ a ∈ allowed, ∃ p q,
        status_error_message value sheet n allowed = p ++ a ++ q)) ∧
    (∀ g : Record, GOAL_STATUSES.contains (rgetD g "status" "") = false →
      validate_goal g =
        .error (status_error_message (rgetD g "status" "") "Goals" 0
          GOAL_STATUSES)) ∧
    (∀ (rows : List (List String)) (i : Nat) (row : List String),
      rows.get? i = some row →
      (∀ j row2, j < i → rows.get? j = some row2 →
        exceptOk (normalize_goal_row row2 (2 + j)) = true) →
      GOAL_STATUSES.contains (statusOfRow row) = false →
      decode_goal_rows rows =
        .error (status_error_message (statusOfRow row) "Goals" (2 + i)
          GOAL_STATUSES)) := by
  refine ⟨validate_status_invalid, ?_, ?_, ?_⟩
  · intro value sheet n allowed
    refine ⟨⟨"Invalid status \x27",
        "\x27 in sheet \x27" ++ sheet ++ "\x27 at row " ++ toString n ++
          ". Allowed: " ++ pyListRepr (pySorted allowed), ?_⟩,
      ⟨"Invalid status \x27" ++ value ++ "\x27 in sheet \x27",
        "\x27 at row " ++ toString n ++ ". Allowed: " ++
          pyListRepr (pySorted allowed), ?_⟩,
      ⟨"Invalid status \x27" ++ value ++ "\x27 in sheet \x27" ++ sheet ++
          "\x27 at row ",
        ". Allowed: " ++ pyListRepr (pySorted allowed), ?_⟩, ?_⟩
    · simp [status_error_message, String.append_assoc]
    · simp [status_error_message, String.append_assoc]
    · simp [status_error_message, String.append_assoc]
    · intro a ha
      obtain ⟨p, q, hpq⟩ :=
        pyListRepr_mem_split a (pySorted allowed)
          ((mem_pySorted a allowed).mpr ha)
      refine ⟨"Invalid status \x27" ++ value ++ "\x27 in sheet \x27" ++
        sheet ++ "\x27 at row " ++ toString n ++ ". Allowed: " ++ p, q, ?_⟩
      rw [status_error_message, hpq]
      simp [String.append_assoc]
  · intro g h
    unfold validate_goal
    rw [validate_status_invalid _ _ _ _ h]
    rfl
  · intro rows i row hget hprev hbad
    exact decode_goal_rows_from_status_invalid rows 2 i row hget hprev hbad

/-- Witness for C7: status "Done" in the second data row of a Goals read
(sheet row 3) raises the message naming the value, the sheet, row 3, and
the allowed set; the same bad status on a pre-write check reports row 0. -/
theorem c7_status_error_naming_witness :
    validate_status "Done" GOAL_STATUSES "Goals" 3 =
      .error (status_error_message "Done" "Goals" 3 GOAL_STATUSES) ∧
    decode_goal_rows
        [["G1", "Ship it", "", "", "In Progress", "", "", "", ""],
         ["G2", "Other", "", "", "Done", "", "", "", ""]] =
      .error (status_error_message "Done" "Goals" 3 GOAL_STATUSES) ∧
    validate_goal [("goalid", "G2"), ("title", "Other"),
        ("status", "Done")] =
      .error (status_error_message "Done" "Goals" 0 GOAL_STATUSES) := by
  refine ⟨c7_status_error_naming.1 "Done" GOAL_STATUSES "Goals" 3 rfl, ?_,
    ?_⟩
  · have h := c7_status_error_naming.2.2.2
      [["G1", "Ship it", "", "", "In Progress", "", "", "", ""],
       ["G2", "Other", "", "", "Done", "", "", "", ""]] 1
      ["G2", "Other", "", "", "Done", "", "", "", ""] rfl
      (by
        intro j row2 hj hg
        cases j with
        | zero =>
          simp at hg
          rw [← hg]
          rfl
        | succ j2 => omega) rfl
    exact h
  · have h := c7_status_error_naming.2.2.1
      [("goalid", "G2"), ("title", "Other"), ("status", "Done")] rfl
    exact h

/-! ## Milestone rollup lemmas (C8) -/

theorem alGet?_alSet_self {α : Type} (l : List (String × α)) (k : String)
    (v : α) : alGet? (alSet l k v) k = some v := by
  induction l with
  | nil => simp [alSet, alGet?]
  | cons p rest ih =>
    by_cases h : p.1 = k
    · simp [alSet, alGet?, h]
    · cases p with
      | mk k0 v0 =>
        simp only at h
        simp [alSet, alGet?, h, ih]

theorem alGet?_alSet_other {α : Type} (l : List (String × α))
    (k k2 : String) (v : α) (h : ¬ k2 = k) :
    alGet? (alSet l k v) k2 = alGet? l k2 := by
  have h2 : ¬ k = k2 := fun he => h he.symm
  induction l with
  | nil => simp [alSet, alGet?, h2]
  | cons p rest ih =>
    cases p with
    | mk k0 v0 =>
      by_cases h0 : k0 = k
      · subst h0
        simp [alSet, alGet?, h2]
      · simp [alSet, alGet?, h0, ih]

/-- The milestone rows of one goal id, in sheet order. -/
def milestonesFor (g : String) (ms : List GoalMilestoneRecord) :
    List GoalMilestoneRecord :=
  ms.filter (fun m => decide (m.goalid = g))

/-- The rows counted as done: status exactly "Completed". -/
def completedFor (g : String) (ms : List GoalMilestoneRecord) :
    List GoalMilestoneRecord :=
  (milestonesFor g ms).filter (fun m => decide (m.status = "Completed"))

/-- The non-empty completion dates of the completed rows. -/
def completedDatesFor (g : String) (ms : List GoalMilestoneRecord) :
    List String :=
  ((milestonesFor g ms).filter
    (fun m => decide (m.status = "Completed" ∧ ¬ m.completiondate = ""))).map
      (fun m => m.completiondate)

theorem milestonesFor_cons_pos (g : String) (m : GoalMilestoneRecord)
    (rest : List GoalMilestoneRecord) (h : m.goalid = g) :
    milestonesFor g (m :: rest) = m :: milestonesFor g rest := by
  simp [milestonesFor, List.filter_cons, h]

theorem milestonesFor_cons_neg (g : String) (m : GoalMilestoneRecord)
    (rest : List GoalMilestoneRecord) (h : ¬ m.goalid = g) :
    milestonesFor g (m :: rest) = milestonesFor g rest := by
  simp [milestonesFor, List.filter_cons, h]

theorem rollup_fold (g : String) (hg : ¬ g = "") :
    ∀ (ms : List GoalMilestoneRecord) (acc : List (String × Rollup)),
      alGet? (ms.foldl rollupStep acc) g =
        if milestonesFor g ms = [] then alGet? acc g
        else some ((milestonesFor g ms).foldl rollupBump
          ((alGet? acc g).getD zeroRollup)) := by
  intro ms
  induction ms with
  | nil => intro acc; simp [milestonesFor]
  | cons m rest ih =>
    intro acc
    rw [List.foldl_cons]
    by_cases hm : m.goalid = g
    · have hne : ¬ m.goalid = "" := by rw [hm]; exact hg
      have hstep : rollupStep acc m =
          alSet acc m.goalid
            (rollupBump ((alGet? acc m.goalid).getD zeroRollup) m) := by
        rw [rollupStep, if_neg hne]
      rw [ih, hstep, hm]
      rw [milestonesFor_cons_pos g m rest hm]
      by_cases hf : milestonesFor g rest = []
      · simp only [hf, if_true, List.cons_ne_nil, if_false,
          alGet?_alSet_self, Option.getD_some, List.foldl_cons,
          List.foldl_nil]
      · simp only [hf, if_false, List.cons_ne_nil, alGet?_alSet_self,
          Option.getD_some, List.foldl_cons]
    · have hstep : alGet? (rollupStep acc m) g = alGet? acc g := by
        unfold rollupStep
        by_cases hz : m.goalid = ""
        · rw [if_pos hz]
        · rw [if_neg hz]
          exact alGet?_alSet_other acc m.goalid g _
            (fun he => hm he.symm)
      rw [ih, hstep, milestonesFor_cons_neg g m rest hm]

theorem foldl_rollupBump (l : List GoalMilestoneRecord) :
    ∀ c : Rollup,
      l.foldl rollupBump c =
        ⟨c.total + l.length,
         c.doneCount +
           (l.filter (fun m => decide (m.status = "Completed"))).length,
         c.completed_dates ++
           (l.filter (fun m => decide (m.status = "Completed" ∧
             ¬ m.completiondate = ""))).map (fun m => m.completiondate)⟩ := by
  induction l with
  | nil => intro c; simp
  | cons m rest ih =>
    intro c
    rw [List.foldl_cons, ih]
    by_cases hs : m.status = "Completed"
    · by_cases hd : m.completiondate = ""
      · rw [show rollupBump c m =
            ⟨c.total + 1, c.doneCount + 1, c.completed_dates⟩ from by
          rw [rollupBump]
          simp [hs, hd]]
        rw [show (m :: rest).filter
              (fun m2 => decide (m2.status = "Completed")) =
            m :: rest.filter (fun m2 => decide (m2.status = "Completed"))
            from by simp [List.filter_cons, hs],
          show (m :: rest).filter (fun m2 => decide (m2.status =
              "Completed" ∧ ¬ m2.completiondate = "")) =
            rest.filter (fun m2 => decide (m2.status = "Completed" ∧
              ¬ m2.completiondate = "")) from by
            simp [List.filter_cons, hs, hd]]
        simp only [Rollup.mk.injEq, List.length_cons]
        refine ⟨by omega, by omega, trivial⟩
      · rw [show rollupBump c m =
            ⟨c.total + 1, c.doneCount + 1,
             c.completed_dates ++ [m.completiondate]⟩ from by
          rw [rollupBump]
          simp [hs, hd]]
        rw [show (m :: rest).filter
              (fun m2 => decide (m2.status = "Completed")) =
            m :: rest.filter (fun m2 => decide (m2.status = "Completed"))
            from by simp [List.filter_cons, hs],
          show (m :: rest).filter (fun m2 => decide (m2.status =
              "Completed" ∧ ¬ m2.completiondate = "")) =
            m :: rest.filter (fun m2 => decide (m2.status = "Completed" ∧
              ¬ m2.completiondate = "")) from by
            simp [List.filter_cons, hs, hd]]
        simp only [Rollup.mk.injEq, List.length_cons, List.map_cons]
        refine ⟨by omega, by omega, by simp⟩
    · rw [show rollupBump c m = ⟨c.total + 1, c.doneCount,
          c.completed_dates⟩ from by
        rw [rollupBump]
        simp [hs]]
      rw [show (m :: rest).filter
            (fun m2 => decide (m2.status = "Completed")) =
          rest.filter (fun m2 => decide (m2.status = "Completed"))
          from by simp [List.filter_cons, hs],
        show (m :: rest).filter (fun m2 => decide (m2.status =
            "Completed" ∧ ¬ m2.completiondate = "")) =
          rest.filter (fun m2 => decide (m2.status = "Completed" ∧
            ¬ m2.completiondate = "")) from by
          simp [List.filter_cons, hs]]
      simp only [Rollup.mk.injEq, List.length_cons]
      refine ⟨by omega, trivial, trivial⟩

theorem alGet?_map_format (l : List (String × Rollup)) (g : String) :
    alGet? (l.map (fun p => (p.1, rollupFormat p.2))) g =
      (alGet? l g).map rollupFormat := by
  induction l with
  | nil => rfl
  | cons p rest ih =>
    cases p with
    | mk k v =>
      by_cases h : k = g
      · simp [alGet?, h]
      · simp [alGet?, h, ih]

/-- C8: the rollup is a pure fold over the listed milestone rows grouped by
goal id: a goal with n rows of which c have status exactly "Completed" maps
to a string starting "c/n done", followed — when a completed row carries a
non-empty completion date — by " (latest D)" where D is the
lexicographically greatest such date. -/
theorem c8_milestone_rollup (milestones : List GoalMilestoneRecord)
    (g : String) (hg : ¬ g = "")
    (hne : ¬ milestonesFor g milestones = []) :
    ∃ suffix,
      alGet? (load_milestone_rollups milestones) g =
        some (toString (completedFor g milestones).length ++ "/" ++
          toString (milestonesFor g milestones).length ++ " done" ++
          suffix) ∧
      ((completedDatesFor g milestones = [] ∧ suffix = "") ∨
        (∃ D, D ∈ completedDatesFor g milestones ∧
          (∀ d ∈ completedDatesFor g milestones, strLe d D = true) ∧
          suffix = " (latest " ++ D ++ ")")) := by
  have hfold := rollup_fold g hg milestones []
  rw [if_neg hne] at hfold
  have hbump := foldl_rollupBump (milestonesFor g milestones) zeroRollup
  rw [show (alGet? ([] : List (String × Rollup)) g).getD zeroRollup =
    zeroRollup from rfl] at hfold
  rw [hbump] at hfold
  unfold load_milestone_rollups
  rw [alGet?_map_format, hfold]
  simp only [Option.map_some']
  unfold rollupFormat
  simp only [zeroRollup, Nat.zero_add, List.nil_append]
  by_cases hd : completedDatesFor g milestones = []
  · refine ⟨"", ?_, Or.inl ⟨hd, rfl⟩⟩
    rw [show ((milestonesFor g milestones).filter
        (fun m => decide (m.status = "Completed" ∧
          ¬ m.completiondate = ""))).map (fun m => m.completiondate) =
      completedDatesFor g milestones from rfl, if_neg (by simp [hd])]
    rw [show (milestonesFor g milestones).filter
        (fun m => decide (m.status = "Completed")) =
      completedFor g milestones from rfl]
  · obtain ⟨D, hlast, hmem, hmax⟩ :=
      getLast?_pySorted_max (completedDatesFor g milestones) hd
    refine ⟨" (latest " ++ D ++ ")", ?_, Or.inr ⟨D, hmem, hmax, rfl⟩⟩
    rw [show ((milestonesFor g milestones).filter
        (fun m => decide (m.status = "Completed" ∧
          ¬ m.completiondate = ""))).map (fun m => m.completiondate) =
      completedDatesFor g milestones from rfl, if_pos (by simp [hd])]
    rw [show (milestonesFor g milestones).filter
        (fun m => decide (m.status = "Completed")) =
      completedFor g milestones from rfl]
    rw [show (pySorted (completedDatesFor g milestones)).getLastD "" = D
      from by rw [List.getLastD_eq_getLast?, hlast]; rfl]

/-- Witness for C8: three milestone rows for goal G1 with two completed
(dates 2024-05-01 and 2024-06-01) roll up to "2/3 done (latest
2024-06-01)". -/
theorem c8_milestone_rollup_witness :
    ∃ suffix,
      alGet? (load_milestone_rollups
        [⟨"G1", "M1", "", "2024-05-01", "Completed", ""⟩,
         ⟨"G1", "M2", "", "", "In Progress", ""⟩,
         ⟨"G1", "M3", "", "2024-06-01", "Completed", ""⟩]) "G1" =
        some ("2" ++ "/" ++ "3" ++ " done" ++ suffix) ∧
      suffix = " (latest " ++ "2024-06-01" ++ ")" := by
  obtain ⟨suffix, hs, hcase⟩ := c8_milestone_rollup
    [⟨"G1", "M1", "", "2024-05-01", "Completed", ""⟩,
     ⟨"G1", "M2", "", "", "In Progress", ""⟩,
     ⟨"G1", "M3", "", "2024-06-01", "Completed", ""⟩] "G1"
    (by decide) (by decide)
  refine ⟨suffix, ?_, ?_⟩
  · rw [hs]
    rfl
  · rcases hcase with ⟨hdates, _⟩ | ⟨D, hmem, hmax, hsuf⟩
    · exact absurd hdates (by decide)
    · have hmem2 : D ∈ ["2024-05-01", "2024-06-01"] := hmem
      have hb : strLe "2024-06-01" D = true := hmax "2024-06-01" (by decide)
      simp only [List.mem_cons, List.not_mem_nil, or_false] at hmem2
      rcases hmem2 with h1 | h1
      · rw [h1] at hb
        exact absurd hb (by decide)
      · rw [hsuf, h1]

/-! ## Memoization and the missing lock (C10) -/

/-- C10 (amended): the memoization set is written with no mutual exclusion.
What does hold: a caller that finds the sheet already memoized performs no
gateway calls, and when one caller finishes initialization before the other
performs its membership check, readiness runs exactly once — the second
caller contributes no operations.  (The counterexample exhibits the
interleaving the missing lock permits: both callers pass the membership
check and both run the initialization body, duplicating the
sheet-creation call.) -/
theorem c10_memoization_without_lock :
    (∀ env (inited : List String) sheet headers c a,
      inited.contains sheet = true →
      ensure_sheet_initialized_for env inited sheet headers c a =
        ([], .ok inited)) ∧
    (∀ env cfg,
      (ensure_init_body env cfg.sheet cfg.headers cfg.create_if_missing
        cfg.allow_header_update).2 = .ok () →
      raceRun env cfg [true, true, false, false] =
        ⟨[cfg.sheet], .halted, .halted,
         (ensure_init_body env cfg.sheet cfg.headers cfg.create_if_missing
           cfg.allow_header_update).1⟩) := by
  constructor
  · intro env inited sheet headers c a h
    unfold ensure_sheet_initialized_for
    rw [if_pos h]
  · intro env cfg hok
    unfold raceRun
    rw [List.foldl_cons, List.foldl_cons, List.foldl_cons, List.foldl_cons,
      List.foldl_nil]
    rw [show raceStep env cfg initialRaceState true =
      ⟨[], .initing, .start, []⟩ from rfl]
    have h2 : raceStep env cfg ⟨[], .initing, .start, []⟩ true =
        ⟨[cfg.sheet], .halted, .start,
         (ensure_init_body env cfg.sheet cfg.headers cfg.create_if_missing
           cfg.allow_header_update).1⟩ := by
      unfold raceStep
      dsimp only
      rw [hok]
      rfl
    rw [h2]
    have h3 : raceStep env cfg
        ⟨[cfg.sheet], .halted, .start,
         (ensure_init_body env cfg.sheet cfg.headers cfg.create_if_missing
           cfg.allow_header_update).1⟩ false =
        ⟨[cfg.sheet], .halted, .halted,
         (ensure_init_body env cfg.sheet cfg.headers cfg.create_if_missing
           cfg.allow_header_update).1⟩ := by
      have hc : ([cfg.sheet].contains cfg.sheet) = true := by simp
      unfold raceStep
      dsimp only
      simp only [hc]
      rfl
    rw [h3]
    rfl

/-- C10 counterexample: with no lock around the memoization set, the
interleaving in which both concurrent first-time callers pass the
membership check before either records the sheet makes both run the
initialization body — the sheet-creation call is performed twice, not
once. -/
theorem c10_memoization_without_lock_counterexample :
    countCreates (raceRun ⟨[], fun _ => [], 1⟩
      ⟨"Accomplishments", ACCOMPLISHMENTS_HEADERS, true, true⟩
      [true, false, true, false]).trace = 2 ∧
    countCreates (raceRun ⟨[], fun _ => [], 1⟩
      ⟨"Accomplishments", ACCOMPLISHMENTS_HEADERS, true, true⟩
      [true, true, false, false]).trace = 1 := by
  constructor
  · rfl
  · rfl

/-- Witness for C10: with a concrete remote store, a memoized sheet incurs
no calls, and the one-after-the-other schedule initializes exactly once. -/
theorem c10_memoization_without_lock_witness :
    ensure_sheet_initialized_for ⟨[], fun _ => [], 1⟩ ["Accomplishments"]
        "Accomplishments" ACCOMPLISHMENTS_HEADERS true true =
      ([], .ok ["Accomplishments"]) ∧
    raceRun ⟨[], fun _ => [], 1⟩
        ⟨"Accomplishments", ACCOMPLISHMENTS_HEADERS, true, true⟩
        [true, true, false, false] =
      ⟨["Accomplishments"], .halted, .halted,
       [.getMetadata, .createSheet "Accomplishments",
        .getHeaders "Accomplishments",
        .updateHeaders "Accomplishments" ACCOMPLISHMENTS_HEADERS]⟩ := by
  constructor
  · exact c10_memoization_without_lock.1 ⟨[], fun _ => [], 1⟩
      ["Accomplishments"] "Accomplishments" ACCOMPLISHMENTS_HEADERS true
      true rfl
  · have h := c10_memoization_without_lock.2 ⟨[], fun _ => [], 1⟩
      ⟨"Accomplishments", ACCOMPLISHMENTS_HEADERS, true, true⟩ rfl
    rw [h]
    rfl

end CareerCompass
